import Mathlib

/-!
Verification development for the WHOOP proxy server (src/server.js).

The JavaScript source is shallowly embedded:
- JS strings are `List Char` (`JSStr`);
- JSON values (what upstream bodies parse to) are the inductive `Json`,
  with JS truthiness `Json.truthy`;
- machine time is `Int` milliseconds since the Unix epoch; the ECMA-262
  date functions used by the source (`Date.UTC`, `toISOString`) are
  embedded from the ECMAScript specification (sections 21.4.1.1-21.4.1.13),
  including the two-digit-year rule of `Date.UTC` / MakeFullYear and
  euclidean (= floor, all divisors positive) integer division;
- fallible JS code (`throw`) returns `Except JsError`;
- the implementation-defined JS date-string parser used only in the
  final fallback branch of the normalizers is a parameter `dateParse`
  (returning `none` for NaN, i.e. an unparseable string).
-/

namespace WhoopProxy

/-- A JavaScript string, as a list of its characters. -/
abbrev JSStr := List Char

/-- A JavaScript error value (only its message is ever observed by the code). -/
structure JsError where
  message : JSStr
deriving DecidableEq

/-- A JSON value as produced by response.json(); numbers are restricted to
integers, which covers every numeric value the claims exercise. -/
inductive Json where
  | null
  | bool (b : Bool)
  | num (n : Int)
  | str (s : JSStr)
  | arr (elems : List Json)
  | obj (fields : List (JSStr × Json))

/-- JS truthiness of a JSON value (null, false, 0 and the empty string are
falsy; arrays and objects are always truthy). -/
def Json.truthy : Json → Bool
  | .null => false
  | .bool b => b
  | .num n => n != 0
  | .str s => !s.isEmpty
  | .arr _ => true
  | .obj _ => true

/-- First binding of a key in a JS object (JS objects have unique keys; the
embedding reads the first occurrence). -/
def lookupField : List (JSStr × Json) → JSStr → Option Json
  | [], _ => none
  | (k, v) :: rest, key => if k = key then some v else lookupField rest key

/-- JS property read v[k]: `none` is undefined (absent); reading a property
of null throws a TypeError; reading a property of any other non-object
primitive yields undefined. -/
def Json.member (v : Json) (k : JSStr) : Except JsError (Option Json) :=
  match v with
  | .null => .error (JsError.mk ("TypeError: cannot read properties of null".data))
  | .obj fields => .ok (lookupField fields k)
  | _ => .ok none

/-- Decidable equality of Except values with decidable components, so that
concrete runs of the fallible embedded functions can be settled by decide. -/
instance {ε α : Type} [DecidableEq ε] [DecidableEq α] : DecidableEq (Except ε α) :=
  fun a b =>
  match a, b with
  | .ok x, .ok y =>
    if h : x = y then .isTrue (congrArg Except.ok h)
    else .isFalse (fun hh => h (Except.ok.inj hh))
  | .error x, .error y =>
    if h : x = y then .isTrue (congrArg Except.error h)
    else .isFalse (fun hh => h (Except.error.inj hh))
  | .ok _, .error _ => .isFalse (fun hh => Except.noConfusion hh)
  | .error _, .ok _ => .isFalse (fun hh => Except.noConfusion hh)

/-- Truthiness of a possibly-undefined value (undefined is falsy). -/
def truthyOpt : Option Json → Bool
  | none => false
  | some v => v.truthy

-- ───────────────────────────────────────────────────────────────────────
-- ECMA-262 date arithmetic (the parts used by server.js)

/-- Milliseconds per day (ECMA msPerDay). -/
def msPerDay : Int := 86400000

/-- ECMA leap-year test (divisible by 4 and not by 100 unless by 400). -/
def isLeapYear (y : Int) : Bool := y % 4 == 0 && (y % 100 != 0 || y % 400 == 0)

/-- ECMA DayFromYear: day number of January 1 of year y.  Divisors are
positive, so Lean Int division coincides with the ECMA floor. -/
def dayFromYear (y : Int) : Int :=
  365 * (y - 1970) + (y - 1969) / 4 - (y - 1901) / 100 + (y - 1601) / 400

/-- Number of days in year y. -/
def daysInYear (y : Int) : Int := if isLeapYear y then 366 else 365

/-- Cumulative days before 0-based month m (ECMA month table); m is clamped
below 0 and above 11, which the embedding never relies on. -/
def monthStartIdx (leap : Bool) (m : Int) : Int :=
  let L : Int := if leap then 1 else 0
  if m ≤ 0 then 0
  else if m = 1 then 31
  else if m = 2 then 59 + L
  else if m = 3 then 90 + L
  else if m = 4 then 120 + L
  else if m = 5 then 151 + L
  else if m = 6 then 181 + L
  else if m = 7 then 212 + L
  else if m = 8 then 243 + L
  else if m = 9 then 273 + L
  else if m = 10 then 304 + L
  else 334 + L

/-- ECMA MakeDay: day number of (year, 0-based month with overflow, date). -/
def makeDay (y m date : Int) : Int :=
  let ym := y + m / 12
  let mn := m % 12
  dayFromYear ym + monthStartIdx (isLeapYear ym) mn + (date - 1)

/-- ECMA MakeFullYear: Date.UTC maps a year argument in 0..99 to 1900+y. -/
def makeFullYear (y : Int) : Int := if 0 ≤ y && y ≤ 99 then 1900 + y else y

/-- Date.UTC(y, m, d) with the time components left at zero, as used by
normalizeEndISO. -/
def dateUTC (y m d : Int) : Int := msPerDay * makeDay (makeFullYear y) m d

/-- Linear search (downward-closed, at most n steps) for the last year y
whose first day is at most d.  Used to realize ECMA YearFromTime, whose
specification is: the largest y with DayFromYear(y) ≤ Day(t). -/
def searchYearGo (d : Int) : Nat → Int → Int
  | 0, y => y
  | n + 1, y => if dayFromYear (y + 1) ≤ d then searchYearGo d n (y + 1) else y

/-- ECMA YearFromTime restricted to day numbers: the (unique) year whose
days contain day d.  The 400-year period of the calendar (146097 days)
gives a start of the search at most 400 years below the answer. -/
def yearFromDay (d : Int) : Int :=
  searchYearGo d 400 (400 * ((d - dayFromYear 0) / 146097))

/-- ECMA MonthFromTime and DateFromTime combined: 1-based month and day of
the month from a day-within-year (0-based). -/
def monthDayFromDWY (leap : Bool) (dwy : Int) : Int × Int :=
  let L : Int := if leap then 1 else 0
  if dwy < 31 then (1, dwy + 1)
  else if dwy < 59 + L then (2, dwy - 30)
  else if dwy < 90 + L then (3, dwy - 58 - L)
  else if dwy < 120 + L then (4, dwy - 89 - L)
  else if dwy < 151 + L then (5, dwy - 119 - L)
  else if dwy < 181 + L then (6, dwy - 150 - L)
  else if dwy < 212 + L then (7, dwy - 180 - L)
  else if dwy < 243 + L then (8, dwy - 211 - L)
  else if dwy < 273 + L then (9, dwy - 242 - L)
  else if dwy < 304 + L then (10, dwy - 272 - L)
  else if dwy < 334 + L then (11, dwy - 303 - L)
  else (12, dwy - 333 - L)

/-- Calendar date (year, 1-based month, day) of a day number. -/
def civilFromDay (d : Int) : Int × Int × Int :=
  let y := yearFromDay d
  let md := monthDayFromDWY (isLeapYear y) (d - dayFromYear y)
  (y, md.1, md.2)

/-- The decimal digit character for n < 10 (clamped to 9 above, never
relied upon). -/
def digitChar : Nat → Char
  | 0 => '0'
  | 1 => '1'
  | 2 => '2'
  | 3 => '3'
  | 4 => '4'
  | 5 => '5'
  | 6 => '6'
  | 7 => '7'
  | 8 => '8'
  | _ => '9'

/-- Two decimal digits (for n < 100). -/
def pad2 (n : Nat) : JSStr := [digitChar (n / 10 % 10), digitChar (n % 10)]

/-- Three decimal digits (for n < 1000). -/
def pad3 (n : Nat) : JSStr :=
  [digitChar (n / 100 % 10), digitChar (n / 10 % 10), digitChar (n % 10)]

/-- Four decimal digits (for n < 10000). -/
def pad4 (n : Nat) : JSStr :=
  [digitChar (n / 1000 % 10), digitChar (n / 100 % 10),
   digitChar (n / 10 % 10), digitChar (n % 10)]

/-- Six decimal digits (for n < 1000000). -/
def pad6 (n : Nat) : JSStr :=
  [digitChar (n / 100000 % 10), digitChar (n / 10000 % 10),
   digitChar (n / 1000 % 10), digitChar (n / 100 % 10),
   digitChar (n / 10 % 10), digitChar (n % 10)]

/-- The year field of toISOString: 4 digits in 0..9999, otherwise the
ECMA expanded form with a sign and 6 digits. -/
def padYear (y : Int) : JSStr :=
  if 0 ≤ y && y ≤ 9999 then pad4 y.toNat
  else if y < 0 then '-' :: pad6 (-y).toNat
  else '+' :: pad6 y.toNat

/-- ECMA Date.prototype.toISOString on an epoch-millisecond value. -/
def toISOString (t : Int) : JSStr :=
  let c := civilFromDay (t / msPerDay)
  let twd := t % msPerDay
  let h := twd / 3600000
  let mi := twd % 3600000 / 60000
  let s := twd % 60000 / 1000
  let ms := twd % 1000
  padYear c.1 ++ '-' :: pad2 c.2.1.toNat ++ '-' :: pad2 c.2.2.toNat ++
  'T' :: pad2 h.toNat ++ ':' :: pad2 mi.toNat ++ ':' :: pad2 s.toNat ++
  '.' :: pad3 ms.toNat ++ ['Z']

-- ───────────────────────────────────────────────────────────────────────
-- Date normalizers (server.js lines 196-222)

/-- Decimal digit test (the regex character class of the source). -/
def isDigitChar (c : Char) : Bool := '0' ≤ c && c ≤ '9'

/-- The test of the source regex for a bare year: four digits. -/
def reYYYY (s : JSStr) : Bool := s.length == 4 && s.all isDigitChar

/-- The test of the source regex for a year-month: four digits, a dash,
two digits. -/
def reYYYYMM (s : JSStr) : Bool :=
  match s with
  | [a, b, c, d, dash, e, f] =>
    isDigitChar a && isDigitChar b && isDigitChar c && isDigitChar d &&
    dash == '-' && isDigitChar e && isDigitChar f
  | _ => false

/-- The test of the source regex for a year-month-day: four digits, a dash,
two digits, a dash, two digits. -/
def reYYYYMMDD (s : JSStr) : Bool :=
  match s with
  | [a, b, c, d, dash1, e, f, dash2, g, h] =>
    isDigitChar a && isDigitChar b && isDigitChar c && isDigitChar d &&
    dash1 == '-' && isDigitChar e && isDigitChar f &&
    dash2 == '-' && isDigitChar g && isDigitChar h
  | _ => false

/-- Numeric value of a digit character. -/
def digitVal (c : Char) : Nat := c.toNat - 48

/-- Value of a string of decimal digits. -/
def natOfDigits (s : JSStr) : Nat := s.foldl (fun acc c => 10 * acc + digitVal c) 0

/-- JS Number() restricted to the integer-shaped strings the claims
exercise: the empty string is 0 (as in JS), an optional minus sign followed
by digits is the signed value, and anything else is NaN (`none`).
Fractional, hexadecimal and whitespace-padded numerals are outside the
model; no claim depends on them. -/
def jsNumber (s : JSStr) : Option Int :=
  if s.isEmpty then some 0
  else if s.headD ' ' = '-' then
    (if !s.tail.isEmpty && s.tail.all isDigitChar then some (-(natOfDigits s.tail : Int))
     else none)
  else if s.all isDigitChar then some ((natOfDigits s : Int)) else none

/-- JS String.prototype.split on a dash. -/
def splitDash : JSStr → List JSStr
  | [] => [[]]
  | c :: rest =>
    if c = '-' then [] :: splitDash rest
    else
      match splitDash rest with
      | [] => [[c]]
      | g :: gs => (c :: g) :: gs

/-- normalizeStartISO (server.js lines 196-204).  A falsy (empty) string is
returned unchanged; the three regex shapes are completed by string
concatenation; anything else goes through the JS date parser and throws
an invalid-date error when that yields NaN. -/
def normalizeStartISO (dateParse : JSStr → Option Int) (s : JSStr) :
    Except JsError JSStr :=
  if s.isEmpty then .ok s
  else if reYYYY s then .ok (s ++ "-01-01T00:00:00.000Z".data)
  else if reYYYYMM s then .ok (s ++ "-01T00:00:00.000Z".data)
  else if reYYYYMMDD s then .ok (s ++ "T00:00:00.000Z".data)
  else
    match dateParse s with
    | none => .error (JsError.mk ("Invalid start date".data))
    | some t => .ok (toISOString t)

/-- normalizeEndISO (server.js lines 206-222).  Bare year: one millisecond
before January 1 of the following year via Date.UTC; year-month: one
millisecond before the first of the following month; year-month-day:
completed by string concatenation; otherwise the JS date parser.  The
branch for a year-month destructures split("-").map(Number); under the
regex guard the split always yields exactly two all-digit parts, so the
fallback arm of the match is unreachable. -/
def normalizeEndISO (dateParse : JSStr → Option Int) (s : JSStr) :
    Except JsError JSStr :=
  if s.isEmpty then .ok s
  else if reYYYY s then
    let y : Int := natOfDigits s
    .ok (toISOString (dateUTC (y + 1) 0 1 - 1))
  else if reYYYYMM s then
    match (splitDash s).map jsNumber with
    | [some y, some m] => .ok (toISOString (dateUTC y m 1 - 1))
    | _ => .error (JsError.mk ("unreachable under the regex guard".data))
  else if reYYYYMMDD s then .ok (s ++ "T23:59:59.999Z".data)
  else
    match dateParse s with
    | none => .error (JsError.mk ("Invalid end date".data))
    | some t => .ok (toISOString t)

-- ───────────────────────────────────────────────────────────────────────
-- Authenticated fetch with refresh and retry (server.js lines 134-191)

/-- Decimal string of a number, as JS template interpolation renders it. -/
def natToStr (n : Nat) : JSStr := Nat.toDigits 10 n

/-- ECMA Response.ok: status in the inclusive range 200-299. -/
def statusOk (status : Nat) : Bool := 200 ≤ status && status ≤ 299

/-- A stored token set.  A field is `none` when absent (or falsy); the code
only ever tests presence and threads the strings through. -/
structure TokenSet where
  access_token : Option JSStr
  refresh_token : Option JSStr
deriving DecidableEq

/-- Outcome of one fetch of the WHOOP resource URL: an HTTP response
(status, text body, parsed JSON body) or a network-level transport error. -/
inductive FetchOutcome where
  | resp (status : Nat) (body : JSStr) (json : Json)
  | netErr (e : JsError)

/-- Outcome of one POST to the token endpoint: an HTTP response whose JSON
body is the new token set, or a network-level transport error. -/
inductive RefreshOutcome where
  | resp (status : Nat) (tokens : TokenSet)
  | netErr (e : JsError)

/-- The upstream behavior a single whoopGet call runs against: the n-th GET
of the resource URL and the n-th refresh POST each have a fixed outcome, so
a value of this type is exactly one interleaved sequence of upstream
responses. -/
structure WEnv where
  fetches : Nat → FetchOutcome
  refreshes : Nat → RefreshOutcome

/-- Mutable state threaded through one whoopGet call: how many GETs and
refreshes have been issued, the backoff waits performed so far (in ms, in
order), the tokens variable of the call, and the two credential scopes. -/
structure WSt where
  fetchIdx : Nat
  refreshIdx : Nat
  delays : List Nat
  tokens : TokenSet
  session : Option (Option TokenSet)
  globalTokens : Option TokenSet

/-- One GET of the resource URL: consumes the next fetch outcome. -/
def doFetch (env : WEnv) (st : WSt) : FetchOutcome × WSt :=
  (env.fetches st.fetchIdx, { st with fetchIdx := st.fetchIdx + 1 })

/-- refreshTokens (server.js lines 134-146): throws when no refresh token
is stored; otherwise POSTs to the token endpoint (consuming the next
refresh outcome) and throws on a transport error or a non-2xx status. -/
def refreshTokensM (env : WEnv) (st : WSt) : Except JsError TokenSet × WSt :=
  match st.tokens.refresh_token with
  | none => (.error (JsError.mk ("Missing refresh token".data)), st)
  | some _ =>
    let st1 := { st with refreshIdx := st.refreshIdx + 1 }
    match env.refreshes st.refreshIdx with
    | .netErr e => (.error e, st1)
    | .resp status newTokens =>
      if statusOk status then (.ok newTokens, st1)
      else (.error (JsError.mk ("Refresh failed ".data ++ natToStr status)), st1)

/-- The body of one attempt of the whoopGet retry loop, up to (but not
including) the 500-test: GET; on a 401, refresh once, write the new tokens
into both credential scopes and the local variable, and GET again.  An
error value is a JS exception propagating to the catch of the loop. -/
def attemptStep (env : WEnv) (st : WSt) : (Except JsError (Nat × JSStr × Json)) × WSt :=
  match doFetch env st with
  | (.netErr e, st1) => (.error e, st1)
  | (.resp status body json, st1) =>
    if status == 401 then
      match refreshTokensM env st1 with
      | (.error e, st2) => (.error e, st2)
      | (.ok newTokens, st2) =>
        let st3 := { st2 with
          tokens := newTokens,
          session := st2.session.map (fun _ => some newTokens),
          globalTokens := some newTokens }
        match doFetch env st3 with
        | (.netErr e, st4) => (.error e, st4)
        | (.resp status2 body2 json2, st4) => (.ok (status2, body2, json2), st4)
    else (.ok (status, body, json), st1)

/-- The retry loop of whoopGet (server.js lines 163-184), run with
fuel = 3 - attempt remaining iterations: a ≥500 status with attempt < 2
waits 300ms x (attempt+1) and retries the whole step; a thrown exception
is rethrown at attempt 2 and otherwise waits the same backoff; any other
response exits the loop.  The fuel-0 arm is unreachable from the initial
call (fuel 3, attempt 0) because the loop always exits at attempt 2. -/
def whoopGetLoop (env : WEnv) : Nat → Nat → WSt → (Except JsError (Nat × JSStr × Json)) × WSt
  | 0, _, st => (.error (JsError.mk ("unreachable: loop fuel exhausted".data)), st)
  | fuel + 1, attempt, st =>
    match attemptStep env st with
    | (.ok (status, body, json), st1) =>
      if 500 ≤ status && attempt < 2 then
        whoopGetLoop env fuel (attempt + 1)
          { st1 with delays := st1.delays ++ [300 * (attempt + 1)] }
      else (.ok (status, body, json), st1)
    | (.error e, st1) =>
      if attempt == 2 then (.error e, st1)
      else
        whoopGetLoop env fuel (attempt + 1)
          { st1 with delays := st1.delays ++ [300 * (attempt + 1)] }

/-- Observable outcome of one whoopGet call. -/
structure WRun where
  result : Except JsError Json
  fetchCount : Nat
  refreshCount : Nat
  delays : List Nat
  session : Option (Option TokenSet)
  globalTokens : Option TokenSet

/-- Credential resolution req.session?.tokens or globalTokens: the
session-scoped token set when the session exists and holds one, else the
process-wide fallback. -/
def resolveTokens (session : Option (Option TokenSet))
    (globalTokens : Option TokenSet) : Option TokenSet :=
  match session with
  | some (some t) => some t
  | _ => globalTokens

/-- whoopGet (server.js lines 149-191): resolve tokens from the session
scope with the process-wide fallback, fail when no access token is stored,
run the retry loop, and finally either throw an upstream error carrying the
status and text body (non-2xx) or return the parsed JSON body. -/
def whoopGetModel (env : WEnv) (session : Option (Option TokenSet))
    (globalTokens : Option TokenSet) : WRun :=
  match resolveTokens session globalTokens with
  | none =>
    { result := .error (JsError.mk ("Not connected to WHOOP yet. Visit /connect/whoop".data)),
      fetchCount := 0, refreshCount := 0, delays := [],
      session := session, globalTokens := globalTokens }
  | some t =>
    match t.access_token with
    | none =>
      { result := .error (JsError.mk ("Not connected to WHOOP yet. Visit /connect/whoop".data)),
        fetchCount := 0, refreshCount := 0, delays := [],
        session := session, globalTokens := globalTokens }
    | some _ =>
      let st0 : WSt :=
        { fetchIdx := 0, refreshIdx := 0, delays := [], tokens := t,
          session := session, globalTokens := globalTokens }
      let out := whoopGetLoop env 3 0 st0
      let st := out.2
      let result : Except JsError Json :=
        match out.1 with
        | .error e => .error e
        | .ok (status, body, json) =>
          if statusOk status then .ok json
          else .error (JsError.mk (("WHOOP error ".data ++ natToStr status) ++
            (": ".data ++ body)))
      { result := result, fetchCount := st.fetchIdx, refreshCount := st.refreshIdx,
        delays := st.delays, session := st.session, globalTokens := st.globalTokens }

-- ───────────────────────────────────────────────────────────────────────
-- Paging, trimming and the list handler (server.js lines 227-293, 339-381)

/-- Null test, realizing the strict comparison nextToken !== null. -/
def Json.isNull : Json → Bool
  | .null => true
  | _ => false

/-- The query-string content rangeUrl builds: each parameter is present in
the URL exactly when its value is truthy (URLSearchParams.set is guarded by
an if on each field in the source). -/
structure UrlKey where
  base : JSStr
  start : Option JSStr
  end_ : Option JSStr
  limit : Option Nat
  nextToken : Option Json

/-- Arguments of one fetchPage call; nextToken is `none` when the property
is not supplied at all (the fast path) and `some v` when the pagination
loop passes its current cursor variable (possibly null). -/
structure PageArgs where
  start : JSStr
  end_ : JSStr
  limit : Nat
  nextToken : Option Json

/-- rangeUrl (server.js lines 227-234): keep each parameter iff truthy. -/
def rangeUrl (base : JSStr) (a : PageArgs) : UrlKey :=
  { base := base,
    start := if a.start.isEmpty then none else some a.start,
    end_ := if a.end_.isEmpty then none else some a.end_,
    limit := if a.limit == 0 then none else some a.limit,
    nextToken :=
      match a.nextToken with
      | some v => if v.truthy then some v else none
      | none => none }

/-- A parsed page: the record list and the normalized cursor. -/
structure Page where
  records : List Json
  nextToken : Json

/-- The response-shape handling of fetchPage (server.js lines 272-275):
records only when the records field is an array, and the first truthy of
nextToken, next_token, null.  Property reads throw when the body is the
JSON value null. -/
def parsePage (page : Json) : Except JsError Page := do
  let recsField ← page.member ("records".data)
  let records : List Json :=
    match recsField with
    | some (.arr l) => l
    | _ => []
  let nt1 ← page.member ("nextToken".data)
  let nt2 ← page.member ("next_token".data)
  let nextToken : Json :=
    if truthyOpt nt1 then nt1.getD Json.null
    else if truthyOpt nt2 then nt2.getD Json.null
    else Json.null
  return { records := records, nextToken := nextToken }

/-- fetchPage (server.js lines 269-276) against an abstract upstream: the
i-th authenticated GET of the request maps a query to a JSON body or to a
thrown error (whoopGetModel is the concrete realization of one such GET). -/
def fetchPageM (whoop : Nat → UrlKey → Except JsError Json) (idx : Nat)
    (base : JSStr) (a : PageArgs) : Except JsError Page :=
  match whoop idx (rangeUrl base a) with
  | .error e => .error e
  | .ok page => parsePage page

/-- A JS count that may be Infinity. -/
inductive DCount where
  | fin (n : Nat)
  | inf
deriving DecidableEq

/-- len < d, as the loop guard compares out.length < desiredCount. -/
def DCount.ltNat (len : Nat) : DCount → Bool
  | .fin n => len < n
  | .inf => true

/-- d ≤ n, as the fast-path test compares desired <= WHOOP_PAGE_MAX. -/
def DCount.leNat : DCount → Nat → Bool
  | .fin m, n => m ≤ n
  | .inf, _ => false

/-- arr.slice(0, d): a prefix of length d, everything when d = Infinity. -/
def DCount.slice (l : List Json) : DCount → List Json
  | .fin n => l.take n
  | .inf => l

/-- Ceiling division. -/
def cld (a b : Nat) : Nat := (a + b - 1) / b

/-- The while loop of fetchAuto (server.js lines 284-291), with explicit
fuel for the (reachable, for adversarial upstreams) divergent executions;
`none` is divergence beyond the fuel.  The guard is evaluated before fuel
is consumed, so guard-false states return for every fuel.  The third
component of a result counts the page requests issued. -/
def fetchAutoGo (whoop : Nat → UrlKey → Except JsError Json)
    (base startISO endISO : JSStr) (desired : DCount) (perPage : Nat) :
    Nat → List Json → Json → Nat → Option (Except JsError (List Json × Json × Nat))
  | 0, out, nextToken, idx =>
    if DCount.ltNat out.length desired && (out.length == 0 || !nextToken.isNull) then
      none
    else some (.ok (DCount.slice out desired, nextToken, idx))
  | fuel + 1, out, nextToken, idx =>
    if DCount.ltNat out.length desired && (out.length == 0 || !nextToken.isNull) then
      match fetchPageM whoop idx base
          { start := startISO, end_ := endISO, limit := perPage,
            nextToken := some nextToken } with
      | .error e => some (.error e)
      | .ok page =>
        let out1 := out ++ page.records
        if !page.nextToken.truthy then
          some (.ok (DCount.slice out1 desired, page.nextToken, idx + 1))
        else
          fetchAutoGo whoop base startISO endISO desired perPage fuel out1
            page.nextToken (idx + 1)
    else some (.ok (DCount.slice out desired, nextToken, idx))

/-- Result of fetchAuto, with the number of page requests issued. -/
structure AutoResult where
  records : List Json
  nextToken : Json
  requests : Nat

/-- fetchAuto (server.js lines 279-293): normalize the starting cursor with
firstNextToken or null, clamp the page size into 1..25 (0 is falsy, so
perPage or 25 replaces it by the maximum), and run the loop. -/
def fetchAutoM (whoop : Nat → UrlKey → Except JsError Json)
    (base startISO endISO : JSStr) (desiredCount : DCount) (perPage : Nat)
    (firstNextToken : Json) (fuel : Nat) : Option (Except JsError AutoResult) :=
  let nt0 := if firstNextToken.truthy then firstNextToken else Json.null
  let pp := min 25 (max 1 (if perPage == 0 then 25 else perPage))
  match fetchAutoGo whoop base startISO endISO desiredCount pp fuel [] nt0 0 with
  | none => none
  | some (.error e) => some (.error e)
  | some (.ok (records, nextToken, requests)) =>
    some (.ok { records := records, nextToken := nextToken, requests := requests })

/-- The allow-list of trimRecord (server.js lines 239-257), in source
order. -/
def allowList : List JSStr :=
  [ "id".data, "start".data, "end".data, "date".data, "createdAt".data,
    "updatedAt".data, "score".data, "sleep_score".data, "recovery_score".data,
    "strain".data, "sport".data, "duration".data, "kilojoules".data,
    "calories".data, "resting_heart_rate".data,
    "heart_rate_variability_rmssd".data, "sleep_efficiency".data ]

/-- trimRecord (server.js lines 236-261): keep the allow-listed fields that
are present (in allow-list order, as JS object insertion order); when
nothing is kept (including every falsy or non-object record, whose
properties are never defined), return the record unchanged. -/
def trimRecord (rec : Json) : Json :=
  let keep : List (JSStr × Json) :=
    match rec with
    | .obj fields =>
      allowList.filterMap (fun k => (lookupField fields k).map (fun v => (k, v)))
    | _ => []
  if keep.isEmpty then rec else .obj keep

/-- maybeTrim (server.js lines 263-266). -/
def maybeTrim (arr : List Json) (trim : Bool) : List Json :=
  if trim then arr.map trimRecord else arr

/-- JS String() of a possibly-undefined string value. -/
def strOfOpt : Option JSStr → JSStr
  | none => "undefined".data
  | some s => s

/-- JS toLowerCase (the query flags compared are ASCII). -/
def jsToLower (s : JSStr) : JSStr := s.map Char.toLower

/-- Truthiness of a possibly-undefined string: present and non-empty. -/
def strOptTruthy : Option JSStr → Bool
  | none => false
  | some s => !s.isEmpty

/-- JS Number() of a possibly-undefined string (undefined is NaN). -/
def jsNumberOpt : Option JSStr → Option Int
  | none => none
  | some s => jsNumber s

/-- The query parameters handleList destructures from req.query; each is a
string when present in the URL. -/
structure ListQuery where
  start : Option JSStr
  end_ : Option JSStr
  limit : Option JSStr
  nextToken : Option JSStr
  trim : Option JSStr
  all : Option JSStr

/-- An HTTP reply of the route layer. -/
inductive Reply where
  | ok (body : Json)
  | badRequest (body : Json)
  | serverError (body : Json)

/-- The JSON error body the catch-all of a route renders. -/
def errBody (msg : JSStr) : Json := Json.obj [(("error".data), Json.str msg)]

/-- wantAll: String(all).toLowerCase() === true (String(undefined) is the
string undefined, hence false when the parameter is absent). -/
def wantAllOf (q : ListQuery) : Bool := jsToLower (strOfOpt q.all) == "true".data

/-- The desired total count (server.js lines 349-353): Infinity when all is
requested; otherwise the floor of a finite positive limit, defaulting to
the page maximum 25. -/
def desiredOf (q : ListQuery) : DCount :=
  if wantAllOf q then .inf
  else
    match jsNumberOpt q.limit with
    | some n => if 0 < n then .fin n.toNat else .fin 25
    | none => .fin 25

/-- The per-page size sent to WHOOP (server.js line 356): the parsed limit
clamped into 1..25, or 25 when the limit is not a finite number. -/
def perPageOf (q : ListQuery) : Nat :=
  (min 25 (match jsNumberOpt q.limit with
    | some n => max 1 (min 25 n)
    | none => 25)).toNat

/-- The trim flag: the trim parameter defaults to the string true and is
then compared by strict string equality. -/
def trimFlagOf (q : ListQuery) : Bool := (q.trim.getD ("true".data)) == "true".data

/-- firstNextToken: the caller-supplied cursor string if truthy, else
null. -/
def firstTokOf (q : ListQuery) : Json :=
  match q.nextToken with
  | some s => if s.isEmpty then Json.null else Json.str s
  | none => Json.null

/-- Math.min of a possibly-infinite count and a number. -/
def DCount.minNat : DCount → Nat → Nat
  | .fin m, n => min m n
  | .inf, n => n

/-- handleList (server.js lines 339-381): validate start and end, normalize
the date bounds (a thrown error becomes a 500 with the message), and either
take the single-page fast path (finite desired of at most 25, no
caller-supplied cursor) or auto-paginate; both render records (trimmed by
default) and the final cursor. -/
def handleListM (whoop : Nat → UrlKey → Except JsError Json)
    (dateParse : JSStr → Option Int) (base : JSStr) (q : ListQuery)
    (fuel : Nat) : Option Reply :=
  if !(strOptTruthy q.start) || !(strOptTruthy q.end_) then
    some (.badRequest (errBody ("Provide start & end (dates or ISO datetimes)".data)))
  else
    match normalizeStartISO dateParse (q.start.getD []) with
    | .error e => some (.serverError (errBody e.message))
    | .ok startISO =>
      match normalizeEndISO dateParse (q.end_.getD []) with
      | .error e => some (.serverError (errBody e.message))
      | .ok endISO =>
        let desired := desiredOf q
        if !(wantAllOf q) && desired.leNat 25 && !(strOptTruthy q.nextToken) then
          match fetchPageM whoop 0 base
              { start := startISO, end_ := endISO,
                limit := desired.minNat 25, nextToken := none } with
          | .error e => some (.serverError (errBody e.message))
          | .ok page =>
            some (.ok (Json.obj
              [(("records".data), Json.arr (maybeTrim page.records (trimFlagOf q))),
               (("nextToken".data), page.nextToken)]))
        else
          match fetchAutoM whoop base startISO endISO desired (perPageOf q)
              (firstTokOf q) fuel with
          | none => none
          | some (.error e) => some (.serverError (errBody e.message))
          | some (.ok r) =>
            some (.ok (Json.obj
              [(("records".data), Json.arr (maybeTrim r.records (trimFlagOf q))),
               (("nextToken".data), r.nextToken)]))

/-- Modelled from the spec (and the claim of the fast-path policy): the
list handler with the general pagination loop run exactly once in place of
the fast path - fetch one page with the loop's per-page limit and starting
cursor, append its records to the empty accumulator, slice to the desired
count, and render together with that page's cursor.  This is the reference
the fast path is compared against. -/
def loopOnceSpec (whoop : Nat → UrlKey → Except JsError Json)
    (dateParse : JSStr → Option Int) (base : JSStr) (q : ListQuery) : Reply :=
  if !(strOptTruthy q.start) || !(strOptTruthy q.end_) then
    .badRequest (errBody ("Provide start & end (dates or ISO datetimes)".data))
  else
    match normalizeStartISO dateParse (q.start.getD []) with
    | .error e => .serverError (errBody e.message)
    | .ok startISO =>
      match normalizeEndISO dateParse (q.end_.getD []) with
      | .error e => .serverError (errBody e.message)
      | .ok endISO =>
        let desired := desiredOf q
        let nt0 := if (firstTokOf q).truthy then firstTokOf q else Json.null
        match fetchPageM whoop 0 base
            { start := startISO, end_ := endISO, limit := perPageOf q,
              nextToken := some nt0 } with
        | .error e => .serverError (errBody e.message)
        | .ok page =>
          .ok (Json.obj
            [(("records".data),
              Json.arr (maybeTrim (DCount.slice page.records desired) (trimFlagOf q))),
             (("nextToken".data), page.nextToken)])

-- ───────────────────────────────────────────────────────────────────────
-- Theorems

set_option maxRecDepth 10000

/-- Total field read, used only to state properties (never by the embedded
code, whose property reads go through Json.member and can throw). -/
def jsonField : Json → JSStr → Option Json
  | .obj fields, k => lookupField fields k
  | _, _ => none

/-- A date parser that can parse nothing: every claim instance below is
settled inside the three regex branches, so the choice is immaterial. -/
def dpNone : JSStr → Option Int := fun _ => none

/-- Claim C10, counterexample: fetchPage is not total over the response
shape, because the JSON body null makes the records property read throw a
TypeError, rather than yielding an empty record list. -/
theorem C10_counterexample :
    parsePage Json.null =
      .error (JsError.mk ("TypeError: cannot read properties of null".data)) := by
  rfl

/-- Claim C10 (amended: for every upstream response body other than the
JSON value null): fetchPage is total over the response shape; a missing or
non-array records field yields the empty record list, and when both cursor
fields (nextToken and next_token) are falsy - missing, null, empty string,
0 or false - the returned cursor is null. -/
theorem C10_theorem (page : Json) (hnn : page ≠ Json.null) :
    ∃ p : Page, parsePage page = .ok p ∧
      ((∀ l, jsonField page ("records".data) ≠ some (Json.arr l)) → p.records = []) ∧
      (truthyOpt (jsonField page ("nextToken".data)) = false →
        truthyOpt (jsonField page ("next_token".data)) = false →
        p.nextToken = Json.null) := by
  cases page with
  | null => exact absurd rfl hnn
  | obj fields =>
    refine ⟨_, rfl, ?_, ?_⟩
    · intro hna
      simp only [parsePage, Json.member, jsonField, Except.bind, bind]
      match hrec : lookupField fields ("records".data) with
      | none => rfl
      | some (.arr l) =>
        exact absurd
          (show jsonField (Json.obj fields) ("records".data) = some (Json.arr l) by
            simp [jsonField, hrec])
          (hna l)
      | some .null | some (.bool _) | some (.num _) | some (.str _) | some (.obj _) => rfl
    · intro h1 h2
      simp only [jsonField] at h1 h2
      simp [parsePage, Json.member, Except.bind, bind, h1, h2]
  | bool b => exact ⟨_, rfl, fun _ => rfl, fun _ _ => rfl⟩
  | num n => exact ⟨_, rfl, fun _ => rfl, fun _ _ => rfl⟩
  | str s => exact ⟨_, rfl, fun _ => rfl, fun _ _ => rfl⟩
  | arr l => exact ⟨_, rfl, fun _ => rfl, fun _ _ => rfl⟩

/-- A body whose records field is not an array and whose only cursor field
is the falsy empty string. -/
def c10Page : Json :=
  Json.obj [(("records".data), Json.num 5), (("next_token".data), Json.str [])]

/-- Witness for the amended claim C10 at a concrete body. -/
theorem C10_witness :
    c10Page ≠ Json.null ∧
    ∃ p : Page, parsePage c10Page = .ok p ∧
      ((∀ l, jsonField c10Page ("records".data) ≠ some (Json.arr l)) → p.records = []) ∧
      (truthyOpt (jsonField c10Page ("nextToken".data)) = false →
        truthyOpt (jsonField c10Page ("next_token".data)) = false →
        p.nextToken = Json.null) :=
  ⟨fun h => Json.noConfusion h, C10_theorem c10Page (fun h => Json.noConfusion h)⟩

/-- Claim C7, counterexample: the empty string is not a valid bare year,
year-month or year-month-day and is not a parseable timestamp, yet both
normalizers return it unchanged (the falsy guard of the source) instead of
failing with an invalid-date error. -/
theorem C7_counterexample :
    reYYYY [] = false ∧ reYYYYMM [] = false ∧ reYYYYMMDD [] = false ∧
    dpNone [] = none ∧
    normalizeStartISO dpNone [] = .ok [] ∧
    normalizeEndISO dpNone [] = .ok [] := by
  exact ⟨rfl, rfl, rfl, rfl, rfl, rfl⟩

/-- Claim C7 (amended: for every non-empty malformed date string; the
empty string, the only falsy JS string, is passed through unchanged by the
falsy guard): inputs matching none of the three shapes and unparseable as
a timestamp make both normalizers fail with the invalid-date errors.  The
embedded normalizers are pure functions, so no state is mutated on any
path. -/
theorem C7_theorem (dateParse : JSStr → Option Int) (s : JSStr) (hne : s ≠ [])
    (h1 : reYYYY s = false) (h2 : reYYYYMM s = false) (h3 : reYYYYMMDD s = false)
    (hp : dateParse s = none) :
    normalizeStartISO dateParse s = .error (JsError.mk ("Invalid start date".data)) ∧
    normalizeEndISO dateParse s = .error (JsError.mk ("Invalid end date".data)) := by
  have hemp : s.isEmpty = false := by
    cases s with
    | nil => exact absurd rfl hne
    | cons c cs => rfl
  constructor
  · simp [normalizeStartISO, hemp, h1, h2, h3, hp]
  · simp [normalizeEndISO, hemp, h1, h2, h3, hp]

/-- Witness for the amended claim C7 at a concrete malformed string. -/
theorem C7_witness :
    ("nonsense".data ≠ ([] : JSStr)) ∧
    reYYYY ("nonsense".data) = false ∧ reYYYYMM ("nonsense".data) = false ∧
    reYYYYMMDD ("nonsense".data) = false ∧ dpNone ("nonsense".data) = none ∧
    (normalizeStartISO dpNone ("nonsense".data) =
      .error (JsError.mk ("Invalid start date".data)) ∧
     normalizeEndISO dpNone ("nonsense".data) =
      .error (JsError.mk ("Invalid end date".data))) :=
  ⟨by decide, by decide, by decide, by decide, rfl,
   C7_theorem dpNone ("nonsense".data) (by decide) (by decide) (by decide)
     (by decide) rfl⟩

/-- Claim C4: when the first GET returns 401, the refresh succeeds, and
the retried GET returns 401 again, the call performs exactly one refresh
and exactly one retried GET (two GETs in total, no backoff wait) and fails
with the upstream error carrying the second 401 and its body, without a
second refresh. -/
theorem C4_theorem (env : WEnv) (session : Option (Option TokenSet))
    (glob : Option TokenSet) (t newTok : TokenSet) (access refresh : JSStr)
    (b0 b1 : JSStr) (j0 j1 : Json)
    (hres : resolveTokens session glob = some t)
    (hacc : t.access_token = some access)
    (href : t.refresh_token = some refresh)
    (hf0 : env.fetches 0 = .resp 401 b0 j0)
    (hrf : env.refreshes 0 = .resp 200 newTok)
    (hf1 : env.fetches 1 = .resp 401 b1 j1) :
    (whoopGetModel env session glob).result =
      .error (JsError.mk ("WHOOP error 401: ".data ++ b1)) ∧
    (whoopGetModel env session glob).fetchCount = 2 ∧
    (whoopGetModel env session glob).refreshCount = 1 ∧
    (whoopGetModel env session glob).delays = [] := by
  have hdig : Nat.toDigits 10 401 = ['4', '0', '1'] := by decide
  simp [whoopGetModel, whoopGetLoop, attemptStep, doFetch, refreshTokensM,
    hres, hacc, href, hf0, hrf, hf1, statusOk, natToStr, hdig]

/-- Concrete instantiation data for the whoopGet claims. -/
def wTok : TokenSet := TokenSet.mk (some ("access0".data)) (some ("refresh0".data))

/-- A fresh token set returned by the refresh endpoint in the witnesses. -/
def wTok1 : TokenSet := TokenSet.mk (some ("access1".data)) (some ("refresh1".data))

/-- Environment of the C4 witness: both GETs return 401, every refresh
succeeds. -/
def envC4 : WEnv :=
  WEnv.mk
    (fun n =>
      match n with
      | 0 => .resp 401 ("unauthorized0".data) Json.null
      | _ => .resp 401 ("unauthorized1".data) Json.null)
    (fun _ => .resp 200 wTok1)

/-- Witness for claim C4 at a concrete environment. -/
theorem C4_witness :
    (whoopGetModel envC4 none (some wTok)).result =
      .error (JsError.mk ("WHOOP error 401: ".data ++ ("unauthorized1".data))) ∧
    (whoopGetModel envC4 none (some wTok)).fetchCount = 2 ∧
    (whoopGetModel envC4 none (some wTok)).refreshCount = 1 ∧
    (whoopGetModel envC4 none (some wTok)).delays = [] :=
  C4_theorem envC4 none (some wTok) wTok wTok1 ("access0".data) ("refresh0".data)
    ("unauthorized0".data) ("unauthorized1".data) Json.null Json.null
    rfl rfl rfl rfl rfl rfl

/-- Claim C5: three consecutive responses with status at least 500 exhaust
the retry budget - exactly 3 GETs, backoff waits of 300 and 600 ms between
them, no refresh - and the call fails with the upstream error carrying the
third status and body; and two such responses followed by a 2xx succeed
with the parsed JSON body after the same two waits. -/
theorem C5_theorem (env env2 : WEnv) (session : Option (Option TokenSet))
    (glob : Option TokenSet) (t : TokenSet) (access : JSStr)
    (s0 s1 s2 s2g : Nat) (b0 b1 b2 b0g b1g bg : JSStr) (j0 j1 j2 j0g j1g jg : Json)
    (hres : resolveTokens session glob = some t)
    (hacc : t.access_token = some access)
    (hs0 : 500 ≤ s0) (hs1 : 500 ≤ s1) (hs2 : 500 ≤ s2)
    (hf0 : env.fetches 0 = .resp s0 b0 j0)
    (hf1 : env.fetches 1 = .resp s1 b1 j1)
    (hf2 : env.fetches 2 = .resp s2 b2 j2)
    (hg0 : env2.fetches 0 = .resp s0 b0g j0g)
    (hg1 : env2.fetches 1 = .resp s1 b1g j1g)
    (hs2g : 200 ≤ s2g ∧ s2g ≤ 299)
    (hg2 : env2.fetches 2 = .resp s2g bg jg) :
    ((whoopGetModel env session glob).result =
      .error (JsError.mk (("WHOOP error ".data ++ natToStr s2) ++ (": ".data ++ b2))) ∧
     (whoopGetModel env session glob).fetchCount = 3 ∧
     (whoopGetModel env session glob).refreshCount = 0 ∧
     (whoopGetModel env session glob).delays = [300, 600]) ∧
    ((whoopGetModel env2 session glob).result = .ok jg ∧
     (whoopGetModel env2 session glob).fetchCount = 3 ∧
     (whoopGetModel env2 session glob).refreshCount = 0 ∧
     (whoopGetModel env2 session glob).delays = [300, 600]) := by
  have h401a : (s0 == 401) = false := beq_eq_false_iff_ne.mpr (by omega)
  have h401b : (s1 == 401) = false := beq_eq_false_iff_ne.mpr (by omega)
  have h401c : (s2 == 401) = false := beq_eq_false_iff_ne.mpr (by omega)
  have h401d : (s2g == 401) = false := beq_eq_false_iff_ne.mpr (by omega)
  have hge0 : 500 ≤ s0 := hs0
  have hnok2 : statusOk s2 = false := by
    have : ¬ s2 ≤ 299 := by omega
    simp [statusOk, this]
  have hok2g : statusOk s2g = true := by
    simp [statusOk, hs2g.1, hs2g.2]
  have hlt2 : ¬ 500 ≤ s2g := by omega
  constructor
  · simp [whoopGetModel, whoopGetLoop, attemptStep, doFetch, refreshTokensM,
      hres, hacc, hf0, hf1, hf2, h401a, h401b, h401c, hs0, hs1, hs2, hnok2]
  · simp [whoopGetModel, whoopGetLoop, attemptStep, doFetch, refreshTokensM,
      hres, hacc, hg0, hg1, hg2, h401a, h401b, h401d, hs0, hs1, hlt2, hok2g]

/-- Environment of the first C5 witness: statuses 500, 502, 503. -/
def envC5a : WEnv :=
  WEnv.mk
    (fun n =>
      match n with
      | 0 => .resp 500 ("oops0".data) Json.null
      | 1 => .resp 502 ("oops1".data) Json.null
      | _ => .resp 503 ("oops2".data) Json.null)
    (fun _ => .resp 200 wTok1)

/-- Environment of the second C5 witness: 500, 502, then 200 with a JSON
body. -/
def envC5b : WEnv :=
  WEnv.mk
    (fun n =>
      match n with
      | 0 => .resp 500 ("oops0".data) Json.null
      | 1 => .resp 502 ("oops1".data) Json.null
      | _ => .resp 200 [] (Json.str ("payload".data)))
    (fun _ => .resp 200 wTok1)

/-- Witness for claim C5 at concrete environments. -/
theorem C5_witness :
    (((whoopGetModel envC5a none (some wTok)).result =
        .error (JsError.mk (("WHOOP error ".data ++ natToStr 503) ++
          (": ".data ++ ("oops2".data)))) ∧
      (whoopGetModel envC5a none (some wTok)).fetchCount = 3 ∧
      (whoopGetModel envC5a none (some wTok)).refreshCount = 0 ∧
      (whoopGetModel envC5a none (some wTok)).delays = [300, 600]) ∧
     ((whoopGetModel envC5b none (some wTok)).result = .ok (Json.str ("payload".data)) ∧
      (whoopGetModel envC5b none (some wTok)).fetchCount = 3 ∧
      (whoopGetModel envC5b none (some wTok)).refreshCount = 0 ∧
      (whoopGetModel envC5b none (some wTok)).delays = [300, 600])) :=
  C5_theorem envC5a envC5b none (some wTok) wTok ("access0".data)
    500 502 503 200 ("oops0".data) ("oops1".data) ("oops2".data)
    ("oops0".data) ("oops1".data) [] Json.null Json.null Json.null
    Json.null Json.null (Json.str ("payload".data))
    rfl rfl (by omega) (by omega) (by omega) rfl rfl rfl rfl rfl
    (by omega) rfl

/-- Environment of the C3 counterexample: 401, then 503 on the refreshed
retry, then 401 again on the next attempt, then 200; every refresh
succeeds. -/
def envC3 : WEnv :=
  WEnv.mk
    (fun n =>
      match n with
      | 0 => .resp 401 ("unauthorized".data) Json.null
      | 1 => .resp 503 ("oops".data) Json.null
      | 2 => .resp 401 ("unauthorized".data) Json.null
      | _ => .resp 200 [] (Json.num 7))
    (fun _ => .resp 200 wTok1)

/-- Claim C3, counterexample: one call whose upstream responses mix 401
and 503 across retry attempts invokes the refresh twice (the 401-refresh
runs inside the retry loop, so each attempt may refresh once), refuting
the at-most-one-refresh-per-call claim; the call even succeeds
afterwards. -/
theorem C3_counterexample :
    (whoopGetModel envC3 none (some wTok)).refreshCount = 2 ∧
    ¬ ((whoopGetModel envC3 none (some wTok)).refreshCount ≤ 1) ∧
    (whoopGetModel envC3 none (some wTok)).result = .ok (Json.num 7) :=
  ⟨rfl, by decide, rfl⟩

/-- One attempt body refreshes at most once. -/
theorem attemptStep_refreshIdx (env : WEnv) (st : WSt) :
    (attemptStep env st).2.refreshIdx ≤ st.refreshIdx + 1 := by
  unfold attemptStep doFetch refreshTokensM
  cases hf : env.fetches st.fetchIdx with
  | netErr e => simp
  | resp status body json =>
    by_cases h : (status == 401) = true
    · simp only [h, if_true]
      cases hr : st.tokens.refresh_token with
      | none => simp
      | some r =>
        cases hrf : env.refreshes st.refreshIdx with
        | netErr e2 => simp
        | resp s2 tk =>
          by_cases h2 : statusOk s2 = true
          · simp only [h2, if_true]
            cases hf2 : env.fetches (st.fetchIdx + 1) with
            | netErr e3 => simp
            | resp a b c => simp
          · simp only [h2]
            simp
    · simp only [h]
      simp

/-- The retry loop refreshes at most once per remaining attempt. -/
theorem whoopGetLoop_refreshIdx (env : WEnv) :
    ∀ fuel attempt st,
      (whoopGetLoop env fuel attempt st).2.refreshIdx ≤ st.refreshIdx + fuel := by
  intro fuel
  induction fuel with
  | zero => intro attempt st; simp [whoopGetLoop]
  | succ f ih =>
    intro attempt st
    rw [whoopGetLoop]
    split
    · rename_i status body json st1 heq
      have hs2 : st1.refreshIdx ≤ st.refreshIdx + 1 := by
        have h := attemptStep_refreshIdx env st
        rw [heq] at h
        exact h
      split
      · have h3 := ih (attempt + 1) { st1 with delays := st1.delays ++ [300 * (attempt + 1)] }
        have h4 : ({ st1 with delays := st1.delays ++ [300 * (attempt + 1)] } : WSt).refreshIdx
            = st1.refreshIdx := rfl
        omega
      · show st1.refreshIdx ≤ st.refreshIdx + (f + 1)
        omega
    · rename_i e st1 heq
      have hs2 : st1.refreshIdx ≤ st.refreshIdx + 1 := by
        have h := attemptStep_refreshIdx env st
        rw [heq] at h
        exact h
      split
      · show st1.refreshIdx ≤ st.refreshIdx + (f + 1)
        omega
      · have h3 := ih (attempt + 1) { st1 with delays := st1.delays ++ [300 * (attempt + 1)] }
        have h4 : ({ st1 with delays := st1.delays ++ [300 * (attempt + 1)] } : WSt).refreshIdx
            = st1.refreshIdx := rfl
        omega

/-- Claim C3 (amended: the refresh is invoked at most once per retry
attempt, hence at most three times during one authenticated fetch call;
the single-refresh bound holds within each attempt but not across the
whole call, because a ≥500 status after a refreshed retry re-enters the
loop and a later 401 refreshes again). -/
theorem C3_theorem (env : WEnv) (session : Option (Option TokenSet))
    (glob : Option TokenSet) :
    (whoopGetModel env session glob).refreshCount ≤ 3 := by
  unfold whoopGetModel
  cases resolveTokens session glob with
  | none => simp
  | some t =>
    obtain ⟨acc, ref⟩ := t
    cases acc with
    | none => simp
    | some a =>
      have h := whoopGetLoop_refreshIdx env 3 0
        { fetchIdx := 0, refreshIdx := 0, delays := [],
          tokens := TokenSet.mk (some a) ref, session := session, globalTokens := glob }
      exact h

/-- Every successful exit of the pagination loop with a finite desired
count carries at most that many records (every return site slices the
accumulator to the desired count). -/
theorem fetchAutoGo_length (whoop : Nat → UrlKey → Except JsError Json)
    (base s e : JSStr) (n perPage : Nat) :
    ∀ fuel out nt idx res,
      fetchAutoGo whoop base s e (.fin n) perPage fuel out nt idx = some (.ok res) →
      res.1.length ≤ n := by
  intro fuel
  induction fuel with
  | zero =>
    intro out nt idx res h
    rw [fetchAutoGo] at h
    split at h
    · exact absurd h (by simp)
    · obtain rfl : (DCount.slice out (.fin n), nt, idx) = res := by
        injection h with h1
        injection h1
      simpa [DCount.slice] using List.length_take_le n out
  | succ f ih =>
    intro out nt idx res h
    rw [fetchAutoGo] at h
    split at h
    · split at h
      · exact absurd h (by simp)
      · split at h
        · rename_i page hpage htok
          obtain rfl : (DCount.slice (out ++ page.records) (.fin n),
              page.nextToken, idx + 1) = res := by
            injection h with h1
            injection h1
          simpa [DCount.slice] using List.length_take_le n (out ++ page.records)
        · exact ih _ _ _ _ h
    · obtain rfl : (DCount.slice out (.fin n), nt, idx) = res := by
        injection h with h1
        injection h1
      simpa [DCount.slice] using List.length_take_le n out

/-- Claim C8: fetchAuto returns at most desiredCount records for every
upstream behavior, every argument and every fuel (truncating any overshoot
from the last page); and with desiredCount 0 it returns the empty record
list and its normalized starting cursor immediately, issuing zero page
requests, for every fuel (including zero). -/
theorem C8_theorem :
    (∀ (whoop : Nat → UrlKey → Except JsError Json) (base s e : JSStr)
       (n perPage : Nat) (first : Json) (fuel : Nat) (r : AutoResult),
       fetchAutoM whoop base s e (.fin n) perPage first fuel = some (.ok r) →
       r.records.length ≤ n) ∧
    (∀ (whoop : Nat → UrlKey → Except JsError Json) (base s e : JSStr)
       (perPage : Nat) (first : Json) (fuel : Nat),
       fetchAutoM whoop base s e (.fin 0) perPage first fuel =
         some (.ok (AutoResult.mk [] (if first.truthy then first else Json.null) 0))) := by
  constructor
  · intro whoop base s e n perPage first fuel r h
    unfold fetchAutoM at h
    simp only [] at h
    cases hgo : fetchAutoGo whoop base s e (.fin n)
        (min 25 (max 1 (if perPage == 0 then 25 else perPage))) fuel []
        (if first.truthy then first else Json.null) 0 with
    | none => rw [hgo] at h; exact absurd h (by simp)
    | some res =>
      rw [hgo] at h
      cases res with
      | error e2 => exact absurd h (by simp)
      | ok triple =>
        obtain ⟨records, nextToken, requests⟩ := triple
        simp only [Option.some.injEq, Except.ok.injEq] at h
        subst h
        simpa using fetchAutoGo_length whoop base s e n _ fuel []
          (if first.truthy then first else Json.null) 0 (records, nextToken, requests) hgo
  · intro whoop base s e perPage first fuel
    unfold fetchAutoM
    cases fuel with
    | zero => rfl
    | succ f => rfl

/-- A truthy JSON value is not null. -/
theorem Json.truthy_isNull {v : Json} (h : v.truthy = true) : v.isNull = false := by
  cases v <;> simp_all [Json.truthy, Json.isNull]

/-- Total record count of the first m upstream pages starting at page
index idx. -/
def accLenFrom (recs : Nat → List Json) (idx : Nat) : Nat → Nat
  | 0 => 0
  | m + 1 => accLenFrom recs idx m + (recs (idx + m)).length

/-- Ceiling division is an upper multiple: b copies of cld a b cover a. -/
theorem le_cld_mul (a b : Nat) (hb : 1 ≤ b) : a ≤ cld a b * b := by
  unfold cld
  rw [Nat.mul_comm]
  have h1 := Nat.div_add_mod (a + b - 1) b
  have h2 : (a + b - 1) % b < b := Nat.mod_lt _ (by omega)
  omega

/-- Pagination loop, branch of full cursored pages: when every page
parses to exactly perPage records and a truthy cursor, a run needing q
more pages (q*perPage covers the missing records) returns after at most q
further requests. -/
theorem fetchAutoGo_full (whoop : Nat → UrlKey → Except JsError Json)
    (base s e : JSStr) (n perPage : Nat)
    (recs : Nat → List Json) (cur : Nat → Json)
    (hpage : ∀ i a, fetchPageM whoop i base a = .ok (Page.mk (recs i) (cur i)))
    (hlen : ∀ i, (recs i).length = perPage)
    (hcur : ∀ i, (cur i).truthy = true) :
    ∀ q fuel out nt idx, (out.length = 0 ∨ nt.isNull = false) →
      out.length < n → n - out.length ≤ q * perPage → q ≤ fuel →
      ∃ rv ntv req, fetchAutoGo whoop base s e (.fin n) perPage fuel out nt idx =
        some (.ok (rv, ntv, req)) ∧ req ≤ idx + q := by
  intro q
  induction q with
  | zero =>
    intro fuel out nt idx hg hlt hcov hfuel
    omega
  | succ q ih =>
    intro fuel out nt idx hg hlt hcov hfuel
    cases fuel with
    | zero => omega
    | succ f =>
      have hmul : (q + 1) * perPage = q * perPage + perPage := by ring
      have hlen1 : (out ++ recs idx).length = out.length + perPage := by
        rw [List.length_append, hlen idx]
      have hguard : (DCount.ltNat out.length (.fin n) &&
          (out.length == 0 || !nt.isNull)) = true := by
        have h1 : DCount.ltNat out.length (.fin n) = true := decide_eq_true hlt
        have h2 : (out.length == 0 || !nt.isNull) = true := by
          cases hg with
          | inl h => simp [h]
          | inr h => simp [h]
        rw [h1, h2]
        rfl
      rw [fetchAutoGo, if_pos hguard, hpage idx]
      simp only [hcur idx, Bool.not_true]
      rw [if_neg (by simp)]
      by_cases hdone : (out ++ recs idx).length < n
      · have hrec := ih f (out ++ recs idx) (cur idx) (idx + 1)
          (Or.inr (Json.truthy_isNull (hcur idx))) hdone (by rw [hlen1]; omega) (by omega)
        obtain ⟨rv, ntv, req, hrun, hreq⟩ := hrec
        exact ⟨rv, ntv, req, hrun, by omega⟩
      · refine ⟨DCount.slice (out ++ recs idx) (.fin n), cur idx, idx + 1, ?_, by omega⟩
        have hg2 : (DCount.ltNat (out ++ recs idx).length (.fin n) &&
            ((out ++ recs idx).length == 0 || !(cur idx).isNull)) = false := by
          have h1 : DCount.ltNat (out ++ recs idx).length (.fin n) = false := by
            have hli := hlen idx
            simp [DCount.ltNat]
            omega
          rw [h1]
          rfl
        cases f with
        | zero => rw [fetchAutoGo, if_neg (by rw [hg2]; exact Bool.false_ne_true)]
        | succ f2 => rw [fetchAutoGo, if_neg (by rw [hg2]; exact Bool.false_ne_true)]

/-- Splitting the page-count accumulator at its first page. -/
theorem accLenFrom_succ (recs : Nat → List Json) (idx : Nat) :
    ∀ m, accLenFrom recs idx (m + 1) = (recs idx).length + accLenFrom recs (idx + 1) m := by
  intro m
  induction m with
  | zero => simp [accLenFrom]
  | succ m ih =>
    rw [accLenFrom, ih, accLenFrom]
    have e : idx + (m + 1) = idx + 1 + m := by omega
    rw [e]
    omega

/-- Pagination loop, exhaustion branch: when the pages at indices
idx..idx+K-1 parse to truthy cursors, the page at idx+K parses to a falsy
cursor, and the desired count is still unmet when each of these pages is
requested, the loop stops at the falsy cursor after exactly K+1 further
requests. -/
theorem fetchAutoGo_exhaust (whoop : Nat → UrlKey → Except JsError Json)
    (base s e : JSStr) (desired : DCount) (perPage : Nat)
    (recs : Nat → List Json) (cur : Nat → Json)
    (hpage : ∀ i a, fetchPageM whoop i base a = .ok (Page.mk (recs i) (cur i))) :
    ∀ K fuel out nt idx,
      (out.length = 0 ∨ nt.isNull = false) →
      (∀ j, j ≤ K → DCount.ltNat (out.length + accLenFrom recs idx j) desired = true) →
      (∀ j, j < K → (cur (idx + j)).truthy = true) →
      (cur (idx + K)).truthy = false →
      K + 1 ≤ fuel →
      ∃ rv, fetchAutoGo whoop base s e desired perPage fuel out nt idx =
        some (.ok (rv, cur (idx + K), idx + K + 1)) := by
  intro K
  induction K with
  | zero =>
    intro fuel out nt idx hg hlt hcur habs hfuel
    cases fuel with
    | zero => omega
    | succ f =>
      have h1 : DCount.ltNat out.length desired = true := by
        have := hlt 0 (Nat.le_refl 0)
        simpa [accLenFrom] using this
      have h2 : (out.length == 0 || !nt.isNull) = true := by
        cases hg with
        | inl h => simp [h]
        | inr h => simp [h]
      have hguard : (DCount.ltNat out.length desired &&
          (out.length == 0 || !nt.isNull)) = true := by
        rw [h1, h2]
        rfl
      have habs0 : (cur idx).truthy = false := by simpa using habs
      refine ⟨DCount.slice (out ++ recs idx) desired, ?_⟩
      rw [fetchAutoGo, if_pos hguard, hpage idx]
      simp [habs0]
  | succ K ih =>
    intro fuel out nt idx hg hlt hcur habs hfuel
    cases fuel with
    | zero => omega
    | succ f =>
      have h1 : DCount.ltNat out.length desired = true := by
        have := hlt 0 (Nat.zero_le _)
        simpa [accLenFrom] using this
      have h2 : (out.length == 0 || !nt.isNull) = true := by
        cases hg with
        | inl h => simp [h]
        | inr h => simp [h]
      have hguard : (DCount.ltNat out.length desired &&
          (out.length == 0 || !nt.isNull)) = true := by
        rw [h1, h2]
        rfl
      have hc0 : (cur idx).truthy = true := by
        have := hcur 0 (by omega)
        simpa using this
      have harg : ∀ j, j ≤ K →
          DCount.ltNat ((out ++ recs idx).length + accLenFrom recs (idx + 1) j)
            desired = true := by
        intro j hj
        have heq : (out ++ recs idx).length + accLenFrom recs (idx + 1) j =
            out.length + accLenFrom recs idx (j + 1) := by
          rw [List.length_append, accLenFrom_succ]
          omega
        rw [heq]
        exact hlt (j + 1) (by omega)
      have hcur2 : ∀ j, j < K → (cur (idx + 1 + j)).truthy = true := by
        intro j hj
        have := hcur (j + 1) (by omega)
        rwa [show idx + (j + 1) = idx + 1 + j by omega] at this
      have habs2 : (cur (idx + 1 + K)).truthy = false := by
        rwa [show idx + (K + 1) = idx + 1 + K by omega] at habs
      obtain ⟨rv, hrv⟩ := ih f (out ++ recs idx) (cur idx) (idx + 1)
        (Or.inr (Json.truthy_isNull hc0)) harg hcur2 habs2 (by omega)
      refine ⟨rv, ?_⟩
      rw [fetchAutoGo, if_pos hguard, hpage idx]
      simp only [hc0, Bool.not_true]
      rw [if_neg (by simp)]
      rw [hrv]
      rw [show idx + 1 + K = idx + (K + 1) by omega]

/-- Claim C9 (amended in its second branch): fetchAuto terminates and
(first branch, as claimed) issues at most cld desiredCount perPage page
requests when every page parses to exactly perPage records and a truthy
cursor; and (second branch, amended) when the page at index K is the first
whose cursor is absent and the desired count is still unmet whenever each
of the pages 0..K is requested, it terminates after exactly K+1 requests,
returning that falsy cursor.  (As literally stated, the second branch is
false: meeting the desired count stops the loop before the first
cursorless page is ever requested - see the counterexample.) -/
theorem C9_theorem :
    (∀ (whoop : Nat → UrlKey → Except JsError Json) (base s e : JSStr)
       (n perPage : Nat) (first : Json) (fuel : Nat)
       (recs : Nat → List Json) (cur : Nat → Json),
       (∀ i a, fetchPageM whoop i base a = .ok (Page.mk (recs i) (cur i))) →
       (∀ i, (recs i).length = perPage) →
       (∀ i, (cur i).truthy = true) →
       1 ≤ perPage → perPage ≤ 25 →
       cld n perPage ≤ fuel →
       ∃ r : AutoResult,
         fetchAutoM whoop base s e (.fin n) perPage first fuel = some (.ok r) ∧
         r.requests ≤ cld n perPage) ∧
    (∀ (whoop : Nat → UrlKey → Except JsError Json) (base s e : JSStr)
       (desired : DCount) (perPage : Nat) (first : Json) (fuel K : Nat)
       (recs : Nat → List Json) (cur : Nat → Json),
       (∀ i a, fetchPageM whoop i base a = .ok (Page.mk (recs i) (cur i))) →
       1 ≤ perPage → perPage ≤ 25 →
       (∀ j, j ≤ K → DCount.ltNat (accLenFrom recs 0 j) desired = true) →
       (∀ j, j < K → (cur j).truthy = true) →
       (cur K).truthy = false →
       K + 1 ≤ fuel →
       ∃ r : AutoResult,
         fetchAutoM whoop base s e desired perPage first fuel = some (.ok r) ∧
         r.requests = K + 1 ∧ r.nextToken = cur K) := by
  constructor
  · intro whoop base s e n perPage first fuel recs cur hpage hlen hcur hpp1 hpp25 hfuel
    have hb : (perPage == 0) = false := beq_eq_false_iff_ne.mpr (by omega)
    have hpp : min 25 (max 1 (if (perPage == 0) = true then 25 else perPage))
        = perPage := by
      rw [hb]
      simp
      omega
    rcases Nat.eq_zero_or_pos n with hn | hn
    · subst hn
      refine ⟨AutoResult.mk [] (if first.truthy then first else Json.null) 0,
        ?_, Nat.zero_le _⟩
      cases fuel with
      | zero => rfl
      | succ f => rfl
    · have hrun := fetchAutoGo_full whoop base s e n perPage recs cur hpage hlen hcur
        (cld n perPage) fuel [] (if first.truthy then first else Json.null) 0
        (Or.inl rfl) (by simpa using hn)
        (by simpa using le_cld_mul n perPage hpp1) hfuel
      obtain ⟨rv, ntv, req, hgo, hreq⟩ := hrun
      refine ⟨AutoResult.mk rv ntv req, ?_, by simpa using hreq⟩
      unfold fetchAutoM
      simp only []
      rw [hpp, hgo]
  · intro whoop base s e desired perPage first fuel K recs cur hpage hpp1 hpp25
      hlt hcur habs hfuel
    have hb : (perPage == 0) = false := beq_eq_false_iff_ne.mpr (by omega)
    have hpp : min 25 (max 1 (if (perPage == 0) = true then 25 else perPage))
        = perPage := by
      rw [hb]
      simp
      omega
    have hrun := fetchAutoGo_exhaust whoop base s e desired perPage recs cur hpage
      K fuel [] (if first.truthy then first else Json.null) 0 (Or.inl rfl)
      (by intro j hj; simpa using hlt j hj)
      (by intro j hj; simpa using hcur j hj)
      (by simpa using habs) hfuel
    obtain ⟨rv, hgo⟩ := hrun
    simp only [Nat.zero_add] at hgo
    refine ⟨AutoResult.mk rv (cur K) (K + 1), ?_, rfl, rfl⟩
    unfold fetchAutoM
    simp only []
    rw [hpp, hgo]

/-- One record of the pagination scenarios. -/
def pagRec (j : Nat) : Json := Json.num j

/-- First upstream page of the pagination scenarios: 10 records and a
truthy cursor. -/
def pagPage1 : Json :=
  Json.obj [(("records".data), Json.arr ((List.range 10).map pagRec)),
            (("nextToken".data), Json.str ("c".data))]

/-- Second upstream page: 10 more records and no cursor field at all. -/
def pagPage2 : Json :=
  Json.obj [(("records".data), Json.arr ((List.range 10).map (fun j => pagRec (10 + j))))]

/-- A two-page upstream: the first request gets pagPage1, every later one
pagPage2. -/
def pagOracle : Nat → UrlKey → Except JsError Json :=
  fun i _ => if i == 0 then .ok pagPage1 else .ok pagPage2

/-- The records of the i-th page served by pagOracle, as fetchPage parses
them. -/
def pagRecs : Nat → List Json :=
  fun i => if i == 0 then (List.range 10).map pagRec
           else (List.range 10).map (fun j => pagRec (10 + j))

/-- The cursor of the i-th page served by pagOracle, as fetchPage
normalizes it (absent becomes null). -/
def pagCur : Nat → Json :=
  fun i => if i == 0 then Json.str ("c".data) else Json.null

/-- pagOracle parses pagewise to pagRecs and pagCur. -/
theorem pagOracle_pages (i : Nat) (base : JSStr) (a : PageArgs) :
    fetchPageM pagOracle i base a = .ok (Page.mk (pagRecs i) (pagCur i)) := by
  cases i with
  | zero => rfl
  | succ j => rfl

/-- Claim C9, counterexample: desiredCount 10 with perPage 10 against the
two-page upstream whose first absent cursor sits on page index 1.  The
claim's exhaustion branch applies (not every page carries a cursor) and
predicts exactly 2 page requests (pages up to and including the first
cursorless page); the code stops after 1 request because the desired count
is already met, and even returns the first page's (truthy) cursor. -/
theorem C9_counterexample :
    fetchAutoM pagOracle ("base".data) ("s".data) ("e".data) (.fin 10) 10
      Json.null 25 =
      some (.ok (AutoResult.mk ((List.range 10).map pagRec)
        (Json.str ("c".data)) 1)) ∧
    (pagCur 0).truthy = true ∧ (pagCur 1).truthy = false ∧ (1 : Nat) ≠ 2 :=
  ⟨rfl, rfl, rfl, by omega⟩

/-- An upstream of unboundedly many identical 5-record cursored pages. -/
def fullPage : Json :=
  Json.obj [(("records".data), Json.arr ((List.range 5).map pagRec)),
            (("nextToken".data), Json.str ("c".data))]

/-- The everywhere-full oracle for the first branch of C9. -/
def fullOracle : Nat → UrlKey → Except JsError Json := fun _ _ => .ok fullPage

/-- Witness for claim C9: the full-pages branch at desiredCount 12 and
perPage 5 (at most cld 12 5 = 3 requests), and the exhaustion branch at
desiredCount 30 against the two-page upstream (exactly 2 requests and the
null cursor). -/
theorem C9_witness :
    (∃ r : AutoResult,
       fetchAutoM fullOracle ("base".data) ("s".data) ("e".data) (.fin 12) 5
         Json.null 25 = some (.ok r) ∧ r.requests ≤ cld 12 5) ∧
    (∃ r : AutoResult,
       fetchAutoM pagOracle ("base".data) ("s".data) ("e".data) (.fin 30) 10
         Json.null 25 = some (.ok r) ∧ r.requests = 1 + 1 ∧ r.nextToken = pagCur 1) :=
  ⟨C9_theorem.1 fullOracle ("base".data) ("s".data) ("e".data) 12 5 Json.null 25
      (fun _ => (List.range 5).map pagRec) (fun _ => Json.str ("c".data))
      (fun i a => rfl) (fun i => rfl) (fun i => rfl)
      (by omega) (by omega) (by decide),
   C9_theorem.2 pagOracle ("base".data) ("s".data) ("e".data) (.fin 30) 10
      Json.null 25 1 pagRecs pagCur (fun i a => pagOracle_pages i ("base".data) a)
      (by omega) (by omega)
      (by
        intro j hj
        interval_cases j
        · decide
        · decide)
      (by
        intro j hj
        interval_cases j
        decide)
      rfl (by omega)⟩

/-- Witness for claim C8: the record-count bound applied to the concrete
two-page run (10 records requested, 10 returned), and the zero-desired
case at the same upstream. -/
theorem C8_witness :
    (AutoResult.mk ((List.range 10).map pagRec) (Json.str ("c".data)) 1).records.length
      ≤ 10 ∧
    fetchAutoM pagOracle ("base".data) ("s".data) ("e".data) (.fin 0) 10
      Json.null 25 =
      some (.ok (AutoResult.mk [] (if Json.null.truthy then Json.null else Json.null) 0)) :=
  ⟨C8_theorem.1 pagOracle ("base".data) ("s".data) ("e".data) 10 10 Json.null 25
      (AutoResult.mk ((List.range 10).map pagRec) (Json.str ("c".data)) 1) rfl,
   C8_theorem.2 pagOracle ("base".data) ("s".data) ("e".data) 10 Json.null 25⟩

/-- Claim C2 (amended): when the fast path applies (no all flag, finite
desired of at most 25, no caller-supplied cursor), the parsed limit is
either NaN/absent or at least 1, and the upstream returns at most the
requested limit of records on every page, the fast path's reply is
identical to running the general pagination loop exactly once.  (Without
the last two hypotheses the outputs differ: a limit parameter parsing to
an integer below 1 makes the fast path request 25 records per page while
the loop requests 1; and the loop slices an overfull page to the desired
count while the fast path does not.) -/
theorem C2_theorem (whoop : Nat → UrlKey → Except JsError Json)
    (dateParse : JSStr → Option Int) (base : JSStr) (q : ListQuery) (fuel : Nat)
    (hall : wantAllOf q = false)
    (hnt : strOptTruthy q.nextToken = false)
    (hd25 : (desiredOf q).leNat 25 = true)
    (hlim : ∀ n : Int, jsNumberOpt q.limit = some n → 1 ≤ n)
    (hhonor : ∀ (i : Nat) (a : PageArgs) (p : Page),
      fetchPageM whoop i base a = .ok p → p.records.length ≤ a.limit) :
    handleListM whoop dateParse base q fuel =
      some (loopOnceSpec whoop dateParse base q) := by
  have hdes : desiredOf q = .fin (perPageOf q) := by
    unfold desiredOf perPageOf
    rw [hall]
    cases hl : jsNumberOpt q.limit with
    | none => rfl
    | some n =>
      have h1 : 1 ≤ n := hlim n hl
      have hd : n.toNat ≤ 25 := by
        have h2 := hd25
        unfold desiredOf at h2
        rw [hall, hl] at h2
        have h3 : (if 0 < n then DCount.fin n.toNat else DCount.fin 25).leNat 25
            = true := h2
        rw [if_pos (show 0 < n by omega)] at h3
        simpa [DCount.leNat] using h3
      show (if 0 < n then DCount.fin n.toNat else DCount.fin 25) =
        DCount.fin (min 25 (max 1 (min 25 n))).toNat
      rw [if_pos (show 0 < n by omega),
        show min 25 (max 1 (min 25 n)) = n by omega]
  have hpp25 : perPageOf q ≤ 25 := by
    unfold perPageOf
    cases jsNumberOpt q.limit with
    | none => omega
    | some n => omega
  have hmin : (desiredOf q).minNat 25 = perPageOf q := by
    rw [hdes]
    simp [DCount.minNat]
    omega
  have hft : firstTokOf q = Json.null := by
    unfold firstTokOf
    cases hq : q.nextToken with
    | none => rfl
    | some s =>
      have hie : s.isEmpty = true := by
        have h2 := hnt
        unfold strOptTruthy at h2
        rw [hq] at h2
        simpa using h2
      show (if s.isEmpty = true then Json.null else Json.str s) = Json.null
      simp [hie]
  have hcond : (!(wantAllOf q) && (desiredOf q).leNat 25 &&
      !(strOptTruthy q.nextToken)) = true := by
    rw [hall, hnt, hd25]
    rfl
  unfold handleListM loopOnceSpec
  by_cases hse : (!(strOptTruthy q.start) || !(strOptTruthy q.end_)) = true
  · rw [if_pos hse, if_pos hse]
  · rw [if_neg hse, if_neg hse]
    cases hstart : normalizeStartISO dateParse (q.start.getD []) with
    | error e => rfl
    | ok startISO =>
      cases hend : normalizeEndISO dateParse (q.end_.getD []) with
      | error e => rfl
      | ok endISO =>
        simp only []
        rw [if_pos hcond, hft]
        have hargs : rangeUrl base
            { start := startISO, end_ := endISO,
              limit := (desiredOf q).minNat 25, nextToken := none } =
            rangeUrl base
            { start := startISO, end_ := endISO, limit := perPageOf q,
              nextToken := some (if Json.null.truthy then Json.null else Json.null) } := by
          rw [hmin]
          rfl
        have hfpe : fetchPageM whoop 0 base
            { start := startISO, end_ := endISO,
              limit := (desiredOf q).minNat 25, nextToken := none } =
            fetchPageM whoop 0 base
            { start := startISO, end_ := endISO, limit := perPageOf q,
              nextToken := some (if Json.null.truthy then Json.null else Json.null) } := by
          unfold fetchPageM
          rw [hargs]
        rw [hfpe]
        cases hfp : fetchPageM whoop 0 base
            { start := startISO, end_ := endISO, limit := perPageOf q,
              nextToken := some (if Json.null.truthy then Json.null else Json.null) } with
        | error e2 => rfl
        | ok page =>
          have hpl : page.records.length ≤ perPageOf q := hhonor 0 _ page hfp
          have hsl : DCount.slice page.records (desiredOf q) = page.records := by
            rw [hdes]
            exact List.take_of_length_le hpl
          show some (Reply.ok (Json.obj
            [(("records".data), Json.arr (maybeTrim page.records (trimFlagOf q))),
             (("nextToken".data), page.nextToken)])) =
            some (Reply.ok (Json.obj
            [(("records".data),
              Json.arr (maybeTrim (DCount.slice page.records (desiredOf q)) (trimFlagOf q))),
             (("nextToken".data), page.nextToken)]))
          rw [hsl]

/-- An upstream that honors the limit parameter exactly: every page holds
precisely the number of records named in its URL and no cursor. -/
def c2Whoop : Nat → UrlKey → Except JsError Json :=
  fun _ k => .ok (Json.obj
    [(("records".data),
      Json.arr ((List.range (k.limit.getD 0)).map (fun i => Json.num (Int.ofNat i))))])

/-- Recovery list endpoint base URL. -/
def recoveryBase : JSStr := "https://api.prod.whoop.com/developer/v2/recovery".data

/-- The query of the C2 counterexample: limit=0, which parses to the
finite number 0, so desired becomes 25 but the per-page size becomes 1. -/
def c2Query : ListQuery :=
  ListQuery.mk (some ("2024".data)) (some ("2024".data)) (some ("0".data))
    none none none

/-- Claim C2, counterexample: a request with limit=0 is inside the claim's
scope (desired is 25 which is at most the hard limit, no cursor, no all
flag), yet against a limit-honoring upstream the fast path replies with 25
records while one run of the general loop replies with 1 record - the
fast path requests 25 per page, the loop requests perPage = 1. -/
theorem C2_counterexample :
    wantAllOf c2Query = false ∧
    (desiredOf c2Query).leNat 25 = true ∧
    strOptTruthy c2Query.nextToken = false ∧
    handleListM c2Whoop dpNone recoveryBase c2Query 25 =
      some (Reply.ok (Json.obj
        [(("records".data), Json.arr ((List.range 25).map (fun i => Json.num (Int.ofNat i)))),
         (("nextToken".data), Json.null)])) ∧
    loopOnceSpec c2Whoop dpNone recoveryBase c2Query =
      Reply.ok (Json.obj
        [(("records".data), Json.arr ((List.range 1).map (fun i => Json.num (Int.ofNat i)))),
         (("nextToken".data), Json.null)]) ∧
    ((List.range 25).map (fun i => Json.num (Int.ofNat i))).length ≠
      ((List.range 1).map (fun i => Json.num (Int.ofNat i))).length := by
  refine ⟨rfl, rfl, rfl, rfl, rfl, ?_⟩
  simp

/-- The query of the C2 witness: limit=10. -/
def c2WitQuery : ListQuery :=
  ListQuery.mk (some ("2024".data)) (some ("2024".data)) (some ("10".data))
    none none none

/-- Every page c2Whoop serves parses to exactly the number of records the
URL requested (0 when the limit parameter is dropped as falsy) and a null
cursor. -/
theorem c2Whoop_page (i : Nat) (base : JSStr) (a : PageArgs) :
    fetchPageM c2Whoop i base a =
      .ok (Page.mk ((List.range ((rangeUrl base a).limit.getD 0)).map
        (fun j => Json.num (Int.ofNat j))) Json.null) := by
  rfl

/-- c2Whoop honors the limit parameter. -/
theorem c2Whoop_honors (base : JSStr) :
    ∀ (i : Nat) (a : PageArgs) (p : Page),
      fetchPageM c2Whoop i base a = .ok p → p.records.length ≤ a.limit := by
  intro i a p hp
  rw [c2Whoop_page i base a] at hp
  have hpe := Except.ok.inj hp
  rw [← hpe]
  simp only [List.length_map, List.length_range]
  unfold rangeUrl
  cases h : (a.limit == 0) with
  | true =>
    have h0 : a.limit = 0 := by simpa using h
    simp [h, h0]
  | false => simp [h]

/-- Witness for the amended claim C2 at a concrete query and upstream. -/
theorem C2_witness :
    handleListM c2Whoop dpNone recoveryBase c2WitQuery 25 =
      some (loopOnceSpec c2Whoop dpNone recoveryBase c2WitQuery) :=
  C2_theorem c2Whoop dpNone recoveryBase c2WitQuery 25 rfl rfl rfl
    (fun n h => by
      have hn : some n = some (10 : Int) := by rw [← h]; rfl
      have : n = 10 := Option.some.inj hn
      omega)
    (c2Whoop_honors recoveryBase)

/-- An upstream record of the C1 scenario: two allow-listed fields and one
bulky field the trimmer drops. -/
def c1Rec (i : Nat) : Json :=
  Json.obj [(("id".data), Json.num (Int.ofNat i)),
            (("recovery_score".data), Json.num (Int.ofNat (60 + i))),
            (("raw_payload".data), Json.str ("bulky".data))]

/-- The same record after trimming. -/
def c1Trimmed (i : Nat) : Json :=
  Json.obj [(("id".data), Json.num (Int.ofNat i)),
            (("recovery_score".data), Json.num (Int.ofNat (60 + i)))]

/-- First upstream page of the C1 scenario: 10 records and a cursor (a
second page follows). -/
def c1Page1 : Json :=
  Json.obj [(("records".data), Json.arr ((List.range 10).map c1Rec)),
            (("nextToken".data), Json.str ("c1".data))]

/-- Second upstream page of the C1 scenario: 10 more records, no cursor
(the upstream is exhausted afterwards). -/
def c1Page2 : Json :=
  Json.obj [(("records".data), Json.arr ((List.range 10).map (fun i => c1Rec (10 + i))))]

/-- The C1 upstream: 10 records per page across 2 pages, then an absent
cursor. -/
def c1Whoop : Nat → UrlKey → Except JsError Json :=
  fun i _ => if i == 0 then .ok c1Page1 else .ok c1Page2

/-- The C1 request: start=2024-01, end=2024-01, limit=10, with the valid
stored credential abstracted into the always-authenticated upstream
oracle. -/
def c1Query : ListQuery :=
  ListQuery.mk (some ("2024-01".data)) (some ("2024-01".data)) (some ("10".data))
    none none none

/-- Claim C1, counterexample: the scenario's response does contain the 10
trimmed records, but its nextToken is the first page's cursor c1, not
null - with limit=10 the handler takes the single-page fast path, and the
stipulated upstream returns a cursor on that page because a second page
exists. -/
theorem C1_counterexample :
    handleListM c1Whoop dpNone recoveryBase c1Query 25 =
      some (Reply.ok (Json.obj
        [(("records".data), Json.arr ((List.range 10).map c1Trimmed)),
         (("nextToken".data), Json.str ("c1".data))])) ∧
    Json.str ("c1".data) ≠ Json.null :=
  ⟨rfl, fun h => Json.noConfusion h⟩

/-- Claim C1 (amended): the scenario's response contains exactly 10
trimmed records - the first page's records passed through trimRecord - and
nextToken equal to the first page's cursor c1 (non-null); only that one
page is requested, and the second page with its absent cursor is never
seen. -/
theorem C1_theorem :
    handleListM c1Whoop dpNone recoveryBase c1Query 25 =
      some (Reply.ok (Json.obj
        [(("records".data), Json.arr ((List.range 10).map c1Trimmed)),
         (("nextToken".data), Json.str ("c1".data))])) ∧
    ((List.range 10).map c1Trimmed).length = 10 ∧
    ((List.range 10).map c1Rec).map trimRecord = (List.range 10).map c1Trimmed :=
  ⟨rfl, rfl, rfl⟩

-- ───────────────────────────────────────────────────────────────────────
-- Claim C6: the date normalizers on the three regex shapes

/-- The last day of calendar month m (1-based) of year y. -/
def lastDayOfMonth (y : Int) (m : Nat) : Nat :=
  if m = 2 then (if isLeapYear y then 29 else 28)
  else if m = 4 ∨ m = 6 ∨ m = 9 ∨ m = 11 then 30
  else 31

/-- The year-month input string of the normalizers. -/
def ymStr (y m : Nat) : JSStr := pad4 y ++ '-' :: pad2 m

/-- The year-month-day input string of the normalizers. -/
def ymdStr (y m d : Nat) : JSStr := pad4 y ++ '-' :: pad2 m ++ '-' :: pad2 d

/-- Every digitChar is a decimal digit. -/
theorem isDigitChar_digitChar (k : Nat) : isDigitChar (digitChar k) = true := by
  unfold digitChar
  split <;> rfl

/-- digitChar is never the dash. -/
theorem digitChar_ne_dash (k : Nat) : digitChar k ≠ '-' := by
  unfold digitChar
  split <;> decide

/-- The numeric value of a digitChar below ten. -/
theorem digitVal_digitChar (k : Nat) (h : k < 10) : digitVal (digitChar k) = k := by
  interval_cases k <;> rfl

/-- Four-digit padding evaluates back to the year, below 10000. -/
theorem natOfDigits_pad4 (y : Nat) (h : y ≤ 9999) : natOfDigits (pad4 y) = y := by
  unfold natOfDigits pad4
  simp only [List.foldl]
  rw [digitVal_digitChar _ (by omega), digitVal_digitChar _ (by omega),
    digitVal_digitChar _ (by omega), digitVal_digitChar _ (by omega)]
  omega

/-- Two-digit padding evaluates back to the number, below 100. -/
theorem natOfDigits_pad2 (m : Nat) (h : m ≤ 99) : natOfDigits (pad2 m) = m := by
  unfold natOfDigits pad2
  simp only [List.foldl]
  rw [digitVal_digitChar _ (by omega), digitVal_digitChar _ (by omega)]
  omega

/-- The four-digit shape accepts every pad4. -/
theorem reYYYY_pad4 (y : Nat) : reYYYY (pad4 y) = true := by
  simp [reYYYY, pad4, isDigitChar_digitChar]

/-- The year-month shape accepts every ymStr. -/
theorem reYYYYMM_ymStr (y m : Nat) : reYYYYMM (ymStr y m) = true := by
  simp [reYYYYMM, ymStr, pad4, pad2, isDigitChar_digitChar]

/-- The year-month-day shape accepts every ymdStr. -/
theorem reYYYYMMDD_ymdStr (y m d : Nat) : reYYYYMMDD (ymdStr y m d) = true := by
  simp [reYYYYMMDD, ymdStr, pad4, pad2, isDigitChar_digitChar]

/-- A ymStr is not a bare year (wrong length). -/
theorem reYYYY_ymStr (y m : Nat) : reYYYY (ymStr y m) = false := by
  simp [reYYYY, ymStr, pad4, pad2]

/-- A ymdStr is not a bare year (wrong length). -/
theorem reYYYY_ymdStr (y m d : Nat) : reYYYY (ymdStr y m d) = false := by
  simp [reYYYY, ymdStr, pad4, pad2]

/-- A ymdStr is not a year-month (wrong length). -/
theorem reYYYYMM_ymdStr (y m d : Nat) : reYYYYMM (ymdStr y m d) = false := by
  simp [reYYYYMM, ymdStr, pad4, pad2]

/-- splitDash of a dash-free string is that string alone. -/
theorem splitDash_no_dash (l : JSStr) (h : '-' ∉ l) : splitDash l = [l] := by
  induction l with
  | nil => rfl
  | cons c cs ih =>
    rw [splitDash]
    rw [if_neg (by intro hc; exact h (by rw [hc]; exact List.mem_cons_self _ _))]
    rw [ih (fun hm => h (List.mem_cons_of_mem _ hm))]

/-- splitDash splits at the first dash when the prefix is dash-free. -/
theorem splitDash_append (l1 l2 : JSStr) (h : '-' ∉ l1) :
    splitDash (l1 ++ '-' :: l2) = l1 :: splitDash l2 := by
  induction l1 with
  | nil =>
    rw [List.nil_append, splitDash]
    rw [if_pos rfl]
  | cons c cs ih =>
    rw [List.cons_append, splitDash]
    rw [if_neg (by intro hc; exact h (by rw [hc]; exact List.mem_cons_self _ _))]
    rw [ih (fun hm => h (List.mem_cons_of_mem _ hm))]

/-- pad4 contains no dash. -/
theorem dash_not_mem_pad4 (y : Nat) : '-' ∉ pad4 y := by
  unfold pad4
  intro h
  simp only [List.mem_cons, List.not_mem_nil, or_false] at h
  rcases h with h | h | h | h <;> exact digitChar_ne_dash _ h.symm

/-- pad2 contains no dash. -/
theorem dash_not_mem_pad2 (m : Nat) : '-' ∉ pad2 m := by
  unfold pad2
  intro h
  simp only [List.mem_cons, List.not_mem_nil, or_false] at h
  rcases h with h | h <;> exact digitChar_ne_dash _ h.symm

/-- jsNumber on a nonempty all-digit string is its decimal value. -/
theorem jsNumber_digits (s : JSStr) (hne : s ≠ []) (hd : s.all isDigitChar = true) :
    jsNumber s = some ((natOfDigits s : Nat) : Int) := by
  rcases s with _ | ⟨c, cs⟩
  · exact absurd rfl hne
  · have hc : isDigitChar c = true := by
      rw [List.all_cons, Bool.and_eq_true] at hd
      exact hd.1
    have hcd : ¬ (((c :: cs : JSStr).headD ' ') = '-') := by
      simp only [List.headD]
      intro h
      rw [h] at hc
      exact absurd hc (by decide)
    unfold jsNumber
    rw [if_neg (by simp), if_neg hcd, if_pos hd]

/-- The first day of the next year is daysInYear later. -/
theorem dayFromYear_succ (y : Int) : dayFromYear (y + 1) = dayFromYear y + daysInYear y := by
  unfold daysInYear isLeapYear dayFromYear
  by_cases h4 : y % 4 = 0 <;> by_cases h100 : y % 100 = 0 <;> by_cases h400 : y % 400 = 0 <;>
    simp [h4, h100, h400] <;> omega

/-- A year holds at least 365 and at most 366 days. -/
theorem daysInYear_bounds (y : Int) : 365 ≤ daysInYear y ∧ daysInYear y ≤ 366 := by
  unfold daysInYear
  split <;> omega

/-- dayFromYear is monotone. -/
theorem dayFromYear_mono {a b : Int} (h : a ≤ b) : dayFromYear a ≤ dayFromYear b := by
  unfold dayFromYear
  omega

/-- The 400-year block containing a day number starts at most 400 years
below its year: the search start of yearFromDay is a sound lower bound
and the block end a strict upper bound. -/
theorem yearFromDay_base (d : Int) :
    dayFromYear (400 * ((d - dayFromYear 0) / 146097)) ≤ d ∧
    d < dayFromYear (400 * ((d - dayFromYear 0) / 146097) + 400) := by
  unfold dayFromYear
  omega

/-- The bounded search finds the unique year whose days contain d,
provided the start is a sound lower bound and the fuel reaches past d. -/
theorem searchYearGo_spec (d : Int) :
    ∀ (n : Nat) (y : Int), dayFromYear y ≤ d → d < dayFromYear (y + n) →
      dayFromYear (searchYearGo d n y) ≤ d ∧
      d < dayFromYear (searchYearGo d n y + 1) := by
  intro n
  induction n with
  | zero =>
    intro y h1 h2
    rw [show y + ((0 : Nat) : Int) = y by omega] at h2
    omega
  | succ n ih =>
    intro y h1 h2
    rw [searchYearGo]
    by_cases hc : dayFromYear (y + 1) ≤ d
    · rw [if_pos hc]
      exact ih (y + 1) hc (by rw [show y + 1 + (n : Int) = y + ((n : Nat) + 1 : Nat) by push_cast; ring]; exact h2)
    · rw [if_neg hc]
      exact ⟨h1, by omega⟩

/-- Characterization of yearFromDay. -/
theorem yearFromDay_spec (d : Int) :
    dayFromYear (yearFromDay d) ≤ d ∧ d < dayFromYear (yearFromDay d + 1) := by
  unfold yearFromDay
  have hb := yearFromDay_base d
  exact searchYearGo_spec d 400 _ hb.1
    (by rw [show 400 * ((d - dayFromYear 0) / 146097) + ((400 : Nat) : Int) =
          400 * ((d - dayFromYear 0) / 146097) + 400 by push_cast; ring]; exact hb.2)

/-- yearFromDay is the unique year whose days contain d. -/
theorem yearFromDay_eq (d Y : Int) (h1 : dayFromYear Y ≤ d)
    (h2 : d < dayFromYear (Y + 1)) : yearFromDay d = Y := by
  have hs := yearFromDay_spec d
  rcases lt_trichotomy (yearFromDay d) Y with h | h | h
  · have := dayFromYear_mono (show yearFromDay d + 1 ≤ Y by omega)
    omega
  · exact h
  · have := dayFromYear_mono (show Y + 1 ≤ yearFromDay d by omega)
    omega

/-- Calendar date of a day inside year y, in terms of the month table. -/
theorem civilFromDay_in_year (y dwy : Int) (h0 : 0 ≤ dwy) (hlt : dwy < daysInYear y) :
    civilFromDay (dayFromYear y + dwy) =
      (y, (monthDayFromDWY (isLeapYear y) dwy).1, (monthDayFromDWY (isLeapYear y) dwy).2) := by
  have hsucc := dayFromYear_succ y
  have hy : yearFromDay (dayFromYear y + dwy) = y :=
    yearFromDay_eq _ y (by omega) (by omega)
  unfold civilFromDay
  rw [hy]
  simp only []
  rw [show dayFromYear y + dwy - dayFromYear y = dwy by ring]

/-- The day before New Year is December 31. -/
theorem civilFromDay_end_of_year (y : Int) :
    civilFromDay (dayFromYear (y + 1) - 1) = (y, 12, 31) := by
  have hsucc := dayFromYear_succ y
  have hb := daysInYear_bounds y
  rw [show dayFromYear (y + 1) - 1 = dayFromYear y + (daysInYear y - 1) by omega]
  rw [civilFromDay_in_year y (daysInYear y - 1) (by omega) (by omega)]
  unfold daysInYear
  cases hL : isLeapYear y <;> simp [hL] <;> rfl

/-- monthStartIdx bounds for the months 1..11. -/
theorem monthStartIdx_bounds (b : Bool) (m : Nat) (h1 : 1 ≤ m) (h11 : m ≤ 11) :
    31 ≤ monthStartIdx b (m : Int) ∧
    monthStartIdx b (m : Int) ≤ 334 + (if b then 1 else 0) := by
  interval_cases m <;> cases b <;> decide

/-- daysInYear in terms of the leap flag. -/
theorem daysInYear_leap (y : Int) :
    daysInYear y = 365 + (if isLeapYear y then 1 else 0) := by
  unfold daysInYear
  cases isLeapYear y <;> simp

/-- The day before the first of month m+1 (0-based index m in 1..11) is
the last day of calendar month m. -/
theorem civilFromDay_end_of_month (y : Int) (m : Nat) (h1 : 1 ≤ m) (h11 : m ≤ 11) :
    civilFromDay (dayFromYear y + monthStartIdx (isLeapYear y) (m : Int) - 1) =
      (y, ((m : Int), ((lastDayOfMonth y m : Nat) : Int))) := by
  have hb := monthStartIdx_bounds (isLeapYear y) m h1 h11
  have hDY := daysInYear_leap y
  rw [show dayFromYear y + monthStartIdx (isLeapYear y) (m : Int) - 1 =
    dayFromYear y + (monthStartIdx (isLeapYear y) (m : Int) - 1) by ring]
  rw [civilFromDay_in_year y _ (by omega) (by omega)]
  unfold lastDayOfMonth
  interval_cases m <;> cases hL : isLeapYear y <;> (try simp only [hL]) <;>
    exact congrArg (Prod.mk y) (by decide)

/-- toISOString one millisecond before the day boundary D renders the
civil date of day D-1 with the fixed time 23:59:59.999. -/
theorem toISOString_endday (D : Int) :
    toISOString (msPerDay * D - 1) =
      padYear (civilFromDay (D - 1)).1 ++
      '-' :: pad2 (civilFromDay (D - 1)).2.1.toNat ++
      '-' :: pad2 (civilFromDay (D - 1)).2.2.toNat ++ ("T23:59:59.999Z").data := by
  unfold toISOString
  rw [show (msPerDay * D - 1) / msPerDay = D - 1 by unfold msPerDay; omega]
  rw [show (msPerDay * D - 1) % msPerDay = 86399999 by unfold msPerDay; omega]
  simp only [List.append_assoc]
  rfl

/-- makeFullYear is the identity above the two-digit range. -/
theorem makeFullYear_eq (Y : Int) (h : 100 ≤ Y) : makeFullYear Y = Y := by
  unfold makeFullYear
  rw [if_neg (by simp only [Bool.and_eq_true, decide_eq_true_eq]; omega)]

/-- makeDay at month index 0, day 1 is New Year. -/
theorem makeDay_jan (Y : Int) : makeDay Y 0 1 = dayFromYear Y := by
  unfold makeDay monthStartIdx
  norm_num

/-- makeDay at a month index 1..11, day 1 is that month boundary. -/
theorem makeDay_month (Y : Int) (m : Nat) (h1 : 1 ≤ m) (h11 : m ≤ 11) :
    makeDay Y (m : Int) 1 = dayFromYear Y + monthStartIdx (isLeapYear Y) (m : Int) := by
  unfold makeDay
  simp only []
  rw [show ((m : Int)) / 12 = 0 by omega, show ((m : Int)) % 12 = (m : Int) by omega]
  rw [show Y + 0 = Y by ring]
  omega

/-- makeDay at month index 12, day 1 rolls over to the next New Year. -/
theorem makeDay_dec (Y : Int) : makeDay Y 12 1 = dayFromYear (Y + 1) := by
  unfold makeDay monthStartIdx
  norm_num

/-- In the four-digit range, padYear of a year is its pad4. -/
theorem padYear_eq (y : Nat) (h : y ≤ 9999) : padYear (y : Int) = pad4 y := by
  unfold padYear
  rw [if_pos (by simp only [Bool.and_eq_true, decide_eq_true_eq]; omega)]
  rw [Int.toNat_natCast]

/-- normalizeStartISO completes a bare year to the first instant of the
year by concatenation. -/
theorem normalizeStartISO_year (dp : JSStr → Option Int) (y : Nat) (hy : y ≤ 9999) :
    normalizeStartISO dp (pad4 y) = .ok (pad4 y ++ ("-01-01T00:00:00.000Z").data) := by
  unfold normalizeStartISO
  rw [if_neg (by simp [pad4]), if_pos (reYYYY_pad4 y)]

/-- normalizeStartISO completes a year-month to the first instant of the
month by concatenation. -/
theorem normalizeStartISO_ym (dp : JSStr → Option Int) (y m : Nat) (hy : y ≤ 9999)
    (hm1 : 1 ≤ m) (hm : m ≤ 12) :
    normalizeStartISO dp (ymStr y m) = .ok (ymStr y m ++ ("-01T00:00:00.000Z").data) := by
  unfold normalizeStartISO
  rw [if_neg (by simp [ymStr, pad4]), if_neg (by simp [reYYYY_ymStr]),
    if_pos (reYYYYMM_ymStr y m)]

/-- normalizeStartISO completes a year-month-day to the first instant of
the day by concatenation. -/
theorem normalizeStartISO_ymd (dp : JSStr → Option Int) (y m d : Nat) (hy : y ≤ 9999)
    (hm1 : 1 ≤ m) (hm : m ≤ 12) (hd1 : 1 ≤ d) (hd : d ≤ lastDayOfMonth (y : Int) m) :
    normalizeStartISO dp (ymdStr y m d) =
      .ok (ymdStr y m d ++ ("T00:00:00.000Z").data) := by
  unfold normalizeStartISO
  rw [if_neg (by simp [ymdStr, pad4]), if_neg (by simp [reYYYY_ymdStr]),
    if_neg (by simp [reYYYYMM_ymdStr]), if_pos (reYYYYMMDD_ymdStr y m d)]

/-- normalizeEndISO completes a year-month-day to the last millisecond of
the day by concatenation. -/
theorem normalizeEndISO_ymd (dp : JSStr → Option Int) (y m d : Nat) (hy : y ≤ 9999)
    (hm1 : 1 ≤ m) (hm : m ≤ 12) (hd1 : 1 ≤ d) (hd : d ≤ lastDayOfMonth (y : Int) m) :
    normalizeEndISO dp (ymdStr y m d) =
      .ok (ymdStr y m d ++ ("T23:59:59.999Z").data) := by
  unfold normalizeEndISO
  rw [if_neg (by simp [ymdStr, pad4]), if_neg (by simp [reYYYY_ymdStr]),
    if_neg (by simp [reYYYYMM_ymdStr]), if_pos (reYYYYMMDD_ymdStr y m d)]

/-- normalizeEndISO maps a bare year in 99..9999 to the last millisecond
of December 31 of that year. -/
theorem normalizeEndISO_year (dp : JSStr → Option Int) (y : Nat) (h99 : 99 ≤ y)
    (hy : y ≤ 9999) :
    normalizeEndISO dp (pad4 y) = .ok (pad4 y ++ ("-12-31T23:59:59.999Z").data) := by
  unfold normalizeEndISO
  rw [if_neg (by simp [pad4]), if_pos (reYYYY_pad4 y)]
  simp only []
  rw [natOfDigits_pad4 y hy]
  unfold dateUTC
  rw [makeFullYear_eq ((y : Int) + 1) (by omega)]
  rw [makeDay_jan]
  rw [toISOString_endday (dayFromYear ((y : Int) + 1))]
  rw [civilFromDay_end_of_year (y : Int)]
  show Except.ok (padYear (y : Int) ++ '-' :: pad2 ((12 : Int)).toNat ++
    '-' :: pad2 ((31 : Int)).toNat ++ ("T23:59:59.999Z").data) = _
  rw [padYear_eq y hy]
  congr 1

/-- normalizeEndISO maps a year-month with year 100..9999 and month 1..12
to the last millisecond of the last day of that month. -/
theorem normalizeEndISO_ym (dp : JSStr → Option Int) (y m : Nat) (hy100 : 100 ≤ y)
    (hy : y ≤ 9999) (hm1 : 1 ≤ m) (hm : m ≤ 12) :
    normalizeEndISO dp (ymStr y m) =
      .ok (pad4 y ++ '-' :: pad2 m ++ '-' :: pad2 (lastDayOfMonth (y : Int) m) ++
        ("T23:59:59.999Z").data) := by
  unfold normalizeEndISO
  rw [if_neg (by simp [ymStr, pad4]), if_neg (by simp [reYYYY_ymStr]),
    if_pos (reYYYYMM_ymStr y m)]
  rw [show ymStr y m = pad4 y ++ '-' :: pad2 m from rfl]
  rw [splitDash_append (pad4 y) (pad2 m) (dash_not_mem_pad4 y)]
  rw [splitDash_no_dash (pad2 m) (dash_not_mem_pad2 m)]
  simp only [List.map]
  rw [jsNumber_digits (pad4 y) (by simp [pad4]) (by simp [pad4, isDigitChar_digitChar])]
  rw [jsNumber_digits (pad2 m) (by simp [pad2]) (by simp [pad2, isDigitChar_digitChar])]
  rw [natOfDigits_pad4 y hy, natOfDigits_pad2 m (by omega)]
  simp only []
  by_cases h12 : m = 12
  · subst h12
    unfold dateUTC
    rw [makeFullYear_eq (y : Int) (by omega)]
    rw [show (((12 : Nat) : Int)) = (12 : Int) by norm_num]
    rw [makeDay_dec]
    rw [toISOString_endday (dayFromYear ((y : Int) + 1))]
    rw [civilFromDay_end_of_year (y : Int)]
    show Except.ok (padYear (y : Int) ++ '-' :: pad2 ((12 : Int)).toNat ++
      '-' :: pad2 ((31 : Int)).toNat ++ ("T23:59:59.999Z").data) = _
    rw [padYear_eq y hy]
    congr 1
  · have h11 : m ≤ 11 := by omega
    unfold dateUTC
    rw [makeFullYear_eq (y : Int) (by omega)]
    rw [makeDay_month (y : Int) m hm1 h11]
    rw [toISOString_endday (dayFromYear (y : Int) +
      monthStartIdx (isLeapYear (y : Int)) (m : Int))]
    rw [civilFromDay_end_of_month (y : Int) m hm1 h11]
    show Except.ok (padYear (y : Int) ++ '-' :: pad2 (((m : Nat) : Int)).toNat ++
      '-' :: pad2 ((((lastDayOfMonth ((y : Nat) : Int) m : Nat) : Int))).toNat ++
      ("T23:59:59.999Z").data) = _
    rw [padYear_eq y hy]
    rw [Int.toNat_natCast, Int.toNat_natCast]

/-- Claim C6, counterexample: the bare year 0098 is a valid four-digit
year, but Date.UTC maps its successor 99 through the two-digit-year rule
to 1999, so normalizeEndISO returns the last instant of 1998, not of
0098.  (normalizeStartISO, pure concatenation, is unaffected.) -/
theorem C6_counterexample :
    normalizeEndISO dpNone (("0098").data) = .ok (("1998-12-31T23:59:59.999Z").data) ∧
    ("1998-12-31T23:59:59.999Z").data ≠ ("0098-12-31T23:59:59.999Z").data := by
  exact ⟨by decide, by decide⟩

/-- Claim C6 (amended): for valid inputs, normalizeStartISO returns the
first instant of the unit for every year 0..9999 (all three shapes, pure
concatenation), and normalizeEndISO returns the last instant - one
millisecond before the next unit, UTC, millisecond precision - for every
year-month-day, for every bare year from 99, and for every year-month
with year from 100.  (In particular the leap year: the end of 2024-02 is
2024-02-29T23:59:59.999Z, and the end of 2024 is 2024-12-31T23:59:59.999Z,
as witnessed below.)  Bare years 0..98 and year-months with year 0..99 are
excluded: Date.UTC silently maps those years into 1900..1999 (see the
counterexample), so the code returns an instant of the wrong century
there. -/
theorem C6_theorem (dp : JSStr → Option Int) :
    (∀ y : Nat, y ≤ 9999 →
       normalizeStartISO dp (pad4 y) = .ok (pad4 y ++ ("-01-01T00:00:00.000Z").data)) ∧
    (∀ y m : Nat, y ≤ 9999 → 1 ≤ m → m ≤ 12 →
       normalizeStartISO dp (ymStr y m) = .ok (ymStr y m ++ ("-01T00:00:00.000Z").data)) ∧
    (∀ y m d : Nat, y ≤ 9999 → 1 ≤ m → m ≤ 12 → 1 ≤ d →
       d ≤ lastDayOfMonth (y : Int) m →
       normalizeStartISO dp (ymdStr y m d) =
         .ok (ymdStr y m d ++ ("T00:00:00.000Z").data)) ∧
    (∀ y m d : Nat, y ≤ 9999 → 1 ≤ m → m ≤ 12 → 1 ≤ d →
       d ≤ lastDayOfMonth (y : Int) m →
       normalizeEndISO dp (ymdStr y m d) =
         .ok (ymdStr y m d ++ ("T23:59:59.999Z").data)) ∧
    (∀ y : Nat, 99 ≤ y → y ≤ 9999 →
       normalizeEndISO dp (pad4 y) = .ok (pad4 y ++ ("-12-31T23:59:59.999Z").data)) ∧
    (∀ y m : Nat, 100 ≤ y → y ≤ 9999 → 1 ≤ m → m ≤ 12 →
       normalizeEndISO dp (ymStr y m) =
         .ok (pad4 y ++ '-' :: pad2 m ++ '-' :: pad2 (lastDayOfMonth (y : Int) m) ++
           ("T23:59:59.999Z").data)) :=
  ⟨fun y hy => normalizeStartISO_year dp y hy,
   fun y m hy h1 h2 => normalizeStartISO_ym dp y m hy h1 h2,
   fun y m d hy h1 h2 h3 h4 => normalizeStartISO_ymd dp y m d hy h1 h2 h3 h4,
   fun y m d hy h1 h2 h3 h4 => normalizeEndISO_ymd dp y m d hy h1 h2 h3 h4,
   fun y h99 hy => normalizeEndISO_year dp y h99 hy,
   fun y m h100 hy h1 h2 => normalizeEndISO_ym dp y m h100 hy h1 h2⟩

/-- Witness for the amended claim C6 at the spec's own examples (2024 is
a leap year): all six conjuncts instantiated at 2024, 2024-02 and
2024-02-29, together with the literal renderings of the two end-bound
examples of the claim. -/
theorem C6_witness :
    (normalizeStartISO dpNone (pad4 2024) =
      .ok (pad4 2024 ++ ("-01-01T00:00:00.000Z").data)) ∧
    (normalizeStartISO dpNone (ymStr 2024 2) =
      .ok (ymStr 2024 2 ++ ("-01T00:00:00.000Z").data)) ∧
    (normalizeStartISO dpNone (ymdStr 2024 2 29) =
      .ok (ymdStr 2024 2 29 ++ ("T00:00:00.000Z").data)) ∧
    (normalizeEndISO dpNone (ymdStr 2024 2 29) =
      .ok (ymdStr 2024 2 29 ++ ("T23:59:59.999Z").data)) ∧
    (normalizeEndISO dpNone (pad4 2024) =
      .ok (pad4 2024 ++ ("-12-31T23:59:59.999Z").data)) ∧
    (normalizeEndISO dpNone (ymStr 2024 2) =
      .ok (pad4 2024 ++ '-' :: pad2 2 ++ '-' :: pad2 (lastDayOfMonth (2024 : Int) 2) ++
        ("T23:59:59.999Z").data)) ∧
    pad4 2024 ++ ("-12-31T23:59:59.999Z").data = ("2024-12-31T23:59:59.999Z").data ∧
    pad4 2024 ++ '-' :: pad2 2 ++ '-' :: pad2 (lastDayOfMonth (2024 : Int) 2) ++
      ("T23:59:59.999Z").data = ("2024-02-29T23:59:59.999Z").data :=
  ⟨(C6_theorem dpNone).1 2024 (by omega),
   (C6_theorem dpNone).2.1 2024 2 (by omega) (by omega) (by omega),
   (C6_theorem dpNone).2.2.1 2024 2 29 (by omega) (by omega) (by omega) (by omega)
     (by decide),
   (C6_theorem dpNone).2.2.2.1 2024 2 29 (by omega) (by omega) (by omega) (by omega)
     (by decide),
   (C6_theorem dpNone).2.2.2.2.1 2024 (by omega) (by omega),
   (C6_theorem dpNone).2.2.2.2.2 2024 2 (by omega) (by omega) (by omega) (by omega),
   by decide, by decide⟩

end WhoopProxy
